import Mathlib

/-!
# DynamicCacheCtrl: a shallow embedding of `src/DynamicCacheCtrl/dynamic_cache_ctrl.cc`

The controller sits between one CPU-side port and four memory-side ports.
Every handler of the source is a function from the controller's fields (and
the answers of its peers) to the new fields, the returned value and the list
of port calls it made, in the order it made them.

Conventions of the embedding:

* a `PacketPtr` is the packet it points to; the null pointer is `none`, so the
  field `blocked_packet` is an `Option Packet` and `if (blocked_packet)` is
  `isSome`. Handlers receive a packet that exists (`sendTimingReq`
  dereferences it);
* `assert(e)` with `e` false aborts the simulator: the handler has no result
  (`none`);
* the answers of the peers (`sendTimingReq`, `sendTimingResp`), the clock
  `curTick()` and the counter `cpu_object->numSimulatedInsts()` are inputs,
  gathered in `Env`;
* `LOG(..)` and `std::cout` lines write text only and are left out;
* counters are natural numbers: their C++ types are declared in the header,
  and no arithmetic on them can fail or feed a branch other than the
  statistics-dump test.
-/

namespace DynamicCacheCtrl

/-- The value `#define USING_CACHE 0`. -/
def USING_CACHE : Int := 0

/-- The value `#define USING_NONE 1`. -/
def USING_NONE : Int := 1

/-- The conversion C++ applies when an integer is stored in a `bool`. -/
def intToBool (n : Int) : Bool := n != 0

/-- The conversion C++ applies when a `bool` is read as an integer. -/
def boolToInt (b : Bool) : Int := if b then 1 else 0

/-- Modelled from the spec: the packet command type `MemCmd` is declared outside
the source file. The spec classifies a request as normal or flush; the source
names the one command `MemCmd::FlushReq`. -/
inductive MemCmd where
  | ReadReq
  | WriteReq
  | FlushReq
  deriving DecidableEq, Repr

/-- The request object built by `std::make_shared<Request>(paddr, size, flags, masterId)`. -/
structure Request where
  paddr : Nat
  size : Nat
  flags : Nat
  masterId : Nat
  deriving DecidableEq, Repr

/-- The packet object built by `new Packet(req, cmd)`. -/
structure Packet where
  req : Request
  cmd : MemCmd
  deriving DecidableEq, Repr

/-- The four memory-side ports the constructor creates. -/
inductive MemSidePort where
  | mem_side
  | cache_side_small
  | cache_side_medium
  | cache_side_large
  deriving DecidableEq, Repr

/-- One call the controller makes on one of its ports, with the peer's answer. -/
inductive Event where
  | sendTimingReq (port : MemSidePort) (pkt : Packet) (accepted : Bool)
  | sendRetryReq
  | sendTimingResp (pkt : Packet) (accepted : Bool)
  deriving DecidableEq, Repr

/-- What a handler reads from outside the controller. -/
structure Env where
  numSimulatedInsts : Nat
  curTick : Nat
  sendTimingReq : MemSidePort → Packet → Bool
  sendTimingResp : Packet → Bool

/-- The mutable fields of the controller, and the configuration flag `accountFlush`. -/
structure Ctrl where
  blocked_packet : Option Packet
  current_state : Int
  lastStatDump : Nat
  lastFlushReq : Nat
  justDumped : Bool
  cacheFlushWait : Bool
  needCPURetry : Bool
  accountFlush : Bool
  num_flushes : Nat
  deriving DecidableEq, Repr

/-- The result of a handler that returned: returned value, fields, port calls. -/
structure Outcome (α : Type) where
  ret : α
  state : Ctrl
  trace : List Event

/-- The constructor `DynamicCacheCtrl::DynamicCacheCtrl(params)`. -/
def create (accountFlush : Bool) : Ctrl :=
  { blocked_packet := none
    current_state := USING_NONE
    lastStatDump := 0
    lastFlushReq := 0
    justDumped := false
    cacheFlushWait := false
    needCPURetry := false
    accountFlush := accountFlush
    num_flushes := 0 }

/-- The handler `DynamicCacheCtrl::notifyFlush()`. -/
def notifyFlush (s : Ctrl) : Outcome Unit :=
  -- if(cacheFlushWait) { cacheFlushWait = false; cpu_side.sendRetryReq(); }
  if s.cacheFlushWait then
    { ret := (), state := { s with cacheFlushWait := false }, trace := [Event.sendRetryReq] }
  else
    { ret := (), state := s, trace := [] }

/-- The result of `mem_port_to_use`: the port, the fields, the reference argument. -/
structure PortChoice where
  port : MemSidePort
  state : Ctrl
  needCacheFlush : Bool

/-- The method `DynamicCacheCtrl::mem_port_to_use(bool& needCacheFlush)`.
`next_state` is a C++ `bool`; the macros `USING_NONE` and `USING_CACHE` are
converted when they are stored in it and when it is compared with them. -/
def mem_port_to_use (s : Ctrl) (current_inst : Nat) (needCacheFlush : Bool) : PortChoice :=
  -- if(1) next_state = USING_NONE; else next_state = USING_CACHE;
  let next_state : Bool :=
    if intToBool 1 then intToBool USING_NONE else intToBool USING_CACHE
  -- if(current_inst > lastStatDump + 1000000) lastStatDump += 1000000;
  let s1 : Ctrl :=
    if current_inst > s.lastStatDump + 1000000 then
      { s with lastStatDump := s.lastStatDump + 1000000 }
    else s
  -- if(current_state == USING_CACHE && next_state == USING_NONE) needCacheFlush = true;
  -- the else-if branch (USING_NONE to USING_CACHE) prints only
  let flush : Bool :=
    if s1.current_state = USING_CACHE ∧ boolToInt next_state = USING_NONE then true
    else needCacheFlush
  -- current_state = next_state;
  let s2 : Ctrl := { s1 with current_state := boolToInt next_state }
  -- if(next_state == USING_NONE) return &mem_side; else return &cache_side_small;
  if boolToInt next_state = USING_NONE then
    { port := MemSidePort.mem_side, state := s2, needCacheFlush := flush }
  else
    { port := MemSidePort.cache_side_small, state := s2, needCacheFlush := flush }

/-- The packet `new Packet(std::make_shared<Request>(0, 10, 0, 0), MemCmd::FlushReq)`. -/
def flushPacket : Packet :=
  { req := { paddr := 0, size := 10, flags := 0, masterId := 0 }, cmd := MemCmd.FlushReq }

/-- The handler `DynamicCacheCtrl::handleTimingReq(pkt)`. -/
def handleTimingReq (s : Ctrl) (env : Env) (pkt : Packet) : Option (Outcome Bool) :=
  -- if(blocked_packet) { needCPURetry = true; return false; }
  if s.blocked_packet.isSome then
    some { ret := false, state := { s with needCPURetry := true }, trace := [] }
  else
    -- bool needCacheFlush = false; port_to_use = mem_port_to_use(needCacheFlush);
    let choice := mem_port_to_use s env.numSimulatedInsts false
    let s1 := choice.state
    if choice.needCacheFlush && s1.accountFlush then
      -- lastFlushReq = curTick(); cacheFlushWait = true;
      let s2 : Ctrl := { s1 with lastFlushReq := env.curTick, cacheFlushWait := true }
      -- result = cache_side_small.sendTimingReq(newpkt); assert(result); return false;
      let result := env.sendTimingReq MemSidePort.cache_side_small flushPacket
      if result then
        some { ret := false, state := s2,
               trace := [Event.sendTimingReq MemSidePort.cache_side_small flushPacket result] }
      else none
    else
      -- result = port_to_use->sendTimingReq(pkt);
      let result := env.sendTimingReq choice.port pkt
      -- if (!result) blocked_packet = pkt;
      let s2 : Ctrl := if !result then { s1 with blocked_packet := some pkt } else s1
      -- return true;
      some { ret := true, state := s2, trace := [Event.sendTimingReq choice.port pkt result] }

/-- The handler `DynamicCacheCtrl::MemSidePort::recvReqRetry()`, run on port `port`. -/
def recvReqRetry (port : MemSidePort) (s : Ctrl) (env : Env) : Option (Outcome Unit) :=
  match s.blocked_packet with
  -- assert(owner->blocked_packet);
  | none => none
  | some p =>
    -- if (sendTimingReq(owner->blocked_packet)) owner->blocked_packet = 0;
    let result := env.sendTimingReq port p
    let s1 : Ctrl := if result then { s with blocked_packet := none } else s
    let t1 : List Event := [Event.sendTimingReq port p result]
    -- if(owner->needCPURetry) { owner->cpu_side.sendRetryReq(); owner->needCPURetry = false; }
    if s1.needCPURetry then
      some { ret := (), state := { s1 with needCPURetry := false },
             trace := t1 ++ [Event.sendRetryReq] }
    else
      some { ret := (), state := s1, trace := t1 }

/-- The handler `DynamicCacheCtrl::handleRecvTimingResp(pkt)`. -/
def handleRecvTimingResp (s : Ctrl) (env : Env) (pkt : Packet) : Outcome Bool :=
  let result := env.sendTimingResp pkt
  { ret := result, state := s, trace := [Event.sendTimingResp pkt result] }

/-- One delivery of an event to the controller: which handler runs, on what. -/
inductive Call where
  | handleTimingReq (pkt : Packet)
  | recvReqRetry (port : MemSidePort)
  | notifyFlush
  | handleRecvTimingResp (pkt : Packet)
  deriving DecidableEq, Repr

/-- One handler run to completion from state `s`; `ret` is the returned
`bool` of the two handlers that return one. -/
def step (s : Ctrl) (env : Env) : Call → Option (Outcome (Option Bool))
  | Call.handleTimingReq pkt =>
    match handleTimingReq s env pkt with
    | some o => some { ret := some o.ret, state := o.state, trace := o.trace }
    | none => none
  | Call.recvReqRetry port =>
    match recvReqRetry port s env with
    | some o => some { ret := none, state := o.state, trace := o.trace }
    | none => none
  | Call.notifyFlush =>
    let o := notifyFlush s
    some { ret := none, state := o.state, trace := o.trace }
  | Call.handleRecvTimingResp pkt =>
    let o := handleRecvTimingResp s env pkt
    some { ret := some o.ret, state := o.state, trace := o.trace }

/-- What one delivered event did: the call, its returned value, its port calls. -/
structure Record where
  call : Call
  ret : Option Bool
  trace : List Event

/-- The handlers run one after the other, each to completion; `none` as soon
as one of them aborts. -/
def run (s : Ctrl) : List (Env × Call) → Option (Ctrl × List Record)
  | [] => some (s, [])
  | (env, c) :: rest =>
    match step s env c with
    | none => none
    | some o =>
      match run o.state rest with
      | none => none
      | some (s2, log) => some (s2, { call := c, ret := o.ret, trace := o.trace } :: log)

/-- The request a delivered event handed over to the controller: the packet
of a `handleTimingReq` call that returned `true`. -/
def Record.handedOver (r : Record) : List Packet :=
  match r.call, r.ret with
  | Call.handleTimingReq pkt, some true => [pkt]
  | _, _ => []

/-- The requests for which `handleTimingReq` returned `true`, in order. -/
def acceptedUpstream : List Record → List Packet
  | [] => []
  | r :: rest => r.handedOver ++ acceptedUpstream rest

/-- The request of a port call that a downstream port accepted. -/
def Event.acceptedSend : Event → List Packet
  | Event.sendTimingReq _ pkt true => [pkt]
  | _ => []

/-- The requests whose send a downstream port accepted, in order. -/
def acceptedSends : List Event → List Packet
  | [] => []
  | e :: rest => e.acceptedSend ++ acceptedSends rest

/-- All port calls of a run, in order. -/
def traceOf : List Record → List Event
  | [] => []
  | r :: rest => r.trace ++ traceOf rest

/-- The delivery discipline of the downstream ports: along the run from `s`,
`recvReqRetry` is delivered only while the blocked slot is occupied. -/
def retryWhenBlocked : Ctrl → List (Env × Call) → Bool
  | _, [] => true
  | s, (env, c) :: rest =>
    (match c with
      | Call.recvReqRetry _ => s.blocked_packet.isSome
      | _ => true) &&
    (match step s env c with
      | some o => retryWhenBlocked o.state rest
      | none => true)

/-- The states the handlers can bring the constructed controller to. -/
inductive Reachable (accountFlush : Bool) : Ctrl → Prop where
  | init : Reachable accountFlush (create accountFlush)
  | step (s : Ctrl) (env : Env) (c : Call) (o : Outcome (Option Bool)) :
      Reachable accountFlush s → step s env c = some o → Reachable accountFlush o.state

/-- The same outcome with `cacheFlushWait` set in its state. -/
def Outcome.withFlushWait {α : Type} (o : Outcome α) : Outcome α :=
  { o with state := { o.state with cacheFlushWait := true } }

/-- The calls that submit the requests of `subs` one after the other, each
with its own environment. -/
def submissions (subs : List (Env × Packet)) : List (Env × Call) :=
  subs.map (fun e => (e.1, Call.handleTimingReq e.2))

/-- Every delivered event of the log is a submission that was answered
`false` without any port call. -/
def allRejectedSilently : List Record → Bool
  | [] => true
  | r :: rest =>
    (match r.call, r.ret, r.trace with
      | Call.handleTimingReq _, some false, [] => true
      | _, _, _ => false) && allRejectedSilently rest

/-- The call is a submission made while the blocked slot of `s` is empty. -/
def submittedOnEmptySlot (s : Ctrl) : Call → Bool
  | Call.handleTimingReq _ => !s.blocked_packet.isSome
  | _ => false

/-- The call takes the flush branch of `handleTimingReq` in state `s`. -/
def triggersFlush (s : Ctrl) (c : Call) : Bool :=
  submittedOnEmptySlot s c && decide (s.current_state = USING_CACHE) && s.accountFlush

/-- The number of submissions made while the blocked slot is empty, along
the run from `s`. -/
def emptySlotSubmissions : Ctrl → List (Env × Call) → Nat
  | _, [] => 0
  | s, (env, c) :: rest =>
    (if submittedOnEmptySlot s c then 1 else 0) +
    (match step s env c with
      | some o => emptySlotSubmissions o.state rest
      | none => 0)

/-- The delivered event is a `handleTimingReq` call in which the controller
sent the flush packet it builds on `cache_side_small`. -/
def Record.issuedFlush (r : Record) : Bool :=
  match r.call with
  | Call.handleTimingReq _ =>
    decide (Event.sendTimingReq MemSidePort.cache_side_small flushPacket true ∈ r.trace)
  | _ => false

/-- The number of flush requests the controller issued in a run. -/
def flushesIssued : List Record → Nat
  | [] => 0
  | r :: rest => (if r.issuedFlush then 1 else 0) + flushesIssued rest

/-- The port call sends a packet whose command is `FlushReq` downstream. -/
def Event.isFlushSend : Event → Bool
  | Event.sendTimingReq _ pkt _ => decide (pkt.cmd = MemCmd.FlushReq)
  | _ => false

/-- The call does not submit a packet whose command is `FlushReq`. -/
def Call.isNormal : Call → Bool
  | Call.handleTimingReq pkt => decide (pkt.cmd ≠ MemCmd.FlushReq)
  | _ => true

/-- No submission of the sequence carries the command `FlushReq`. -/
def normalRequests : List (Env × Call) → Bool
  | [] => true
  | (_, c) :: rest => c.isNormal && normalRequests rest

/-- The blocked slot holds no packet whose command is `FlushReq`. -/
def holdsNormal (s : Ctrl) : Bool :=
  match s.blocked_packet with
  | some p => decide (p.cmd ≠ MemCmd.FlushReq)
  | none => true

/-- In every environment of the sequence the flush send is accepted. -/
def flushSendsAccepted : List (Env × Call) → Bool
  | [] => true
  | (env, _) :: rest =>
    env.sendTimingReq MemSidePort.cache_side_small flushPacket && flushSendsAccepted rest

/-- The port call is a downstream send that the peer rejected. -/
def Event.isRejectedSend : Event → Bool
  | Event.sendTimingReq _ _ accepted => !accepted
  | _ => false

/-- The rejected sends not yet answered by a capacity signal, after a call
`c` that made the port calls `trace`: `recvReqRetry` answers one, every
rejected send of `trace` adds one. -/
def owedAfter (owed : Nat) (c : Call) (trace : List Event) : Nat :=
  (match c with
    | Call.recvReqRetry _ => owed - 1
    | _ => owed) + trace.countP Event.isRejectedSend

/-- The delivery discipline of the downstream side: along the run from `s`,
`recvReqRetry` is delivered only when a rejected send is still unanswered
(`owed` counts them), so only after a rejection and at most once for each. -/
def retryAfterRejection : Nat → Ctrl → List (Env × Call) → Bool
  | _, _, [] => true
  | owed, s, (env, c) :: rest =>
    (match c with
      | Call.recvReqRetry _ => decide (0 < owed)
      | _ => true) &&
    (match step s env c with
      | some o => retryAfterRejection (owedAfter owed c o.trace) o.state rest
      | none => true)

/-- A downstream peer that rejects every request. -/
def envBusy : Env :=
  { numSimulatedInsts := 5, curTick := 7
    sendTimingReq := fun _ _ => false, sendTimingResp := fun _ => true }

/-- A downstream peer that accepts every request. -/
def envFree : Env :=
  { numSimulatedInsts := 5, curTick := 7
    sendTimingReq := fun _ _ => true, sendTimingResp := fun _ => true }

/-- A read request for address `a`. -/
def readPkt (a : Nat) : Packet :=
  { req := { paddr := a, size := 8, flags := 0, masterId := 1 }, cmd := MemCmd.ReadReq }

/-! ## Lemmas on the handlers -/

theorem mem_port_to_use_port (s : Ctrl) (n : Nat) (f : Bool) :
    (mem_port_to_use s n f).port = MemSidePort.mem_side := by
  simp [mem_port_to_use, intToBool, boolToInt, USING_NONE]

theorem mem_port_to_use_needCacheFlush (s : Ctrl) (n : Nat) (f : Bool) :
    (mem_port_to_use s n f).needCacheFlush = (decide (s.current_state = USING_CACHE) || f) := by
  simp only [mem_port_to_use, intToBool, boolToInt, USING_NONE, USING_CACHE]
  by_cases hn : n > s.lastStatDump + 1000000 <;> by_cases hc : s.current_state = 0 <;>
    simp [hn, hc]

theorem mem_port_to_use_state (s : Ctrl) (n : Nat) (f : Bool) :
    (mem_port_to_use s n f).state =
      { s with
        lastStatDump := if n > s.lastStatDump + 1000000 then s.lastStatDump + 1000000
                        else s.lastStatDump
        current_state := USING_NONE } := by
  simp only [mem_port_to_use, intToBool, boolToInt, USING_NONE, USING_CACHE]
  by_cases hn : n > s.lastStatDump + 1000000 <;> simp [hn]

theorem handleTimingReq_blocked (s : Ctrl) (env : Env) (pkt p : Packet)
    (hslot : s.blocked_packet = some p) :
    handleTimingReq s env pkt =
      some { ret := false, state := { s with needCPURetry := true }, trace := [] } := by
  simp [handleTimingReq, hslot]

theorem handleTimingReq_dispatch (s : Ctrl) (env : Env) (pkt : Packet)
    (hslot : s.blocked_packet = none)
    (hnoflush : s.current_state ≠ USING_CACHE ∨ s.accountFlush = false) :
    handleTimingReq s env pkt =
      some { ret := true
             state := if env.sendTimingReq MemSidePort.mem_side pkt
               then (mem_port_to_use s env.numSimulatedInsts false).state
               else { (mem_port_to_use s env.numSimulatedInsts false).state with
                      blocked_packet := some pkt }
             trace := [Event.sendTimingReq MemSidePort.mem_side pkt
               (env.sendTimingReq MemSidePort.mem_side pkt)] } := by
  have hgate : ((mem_port_to_use s env.numSimulatedInsts false).needCacheFlush
      && (mem_port_to_use s env.numSimulatedInsts false).state.accountFlush) = false := by
    rw [mem_port_to_use_needCacheFlush, mem_port_to_use_state]
    rcases hnoflush with h | h
    · simp [h]
    · simp [h]
  simp only [handleTimingReq, hslot, Option.isSome_none, Bool.false_eq_true, if_false, hgate,
    mem_port_to_use_port]
  cases env.sendTimingReq MemSidePort.mem_side pkt <;> simp

theorem handleTimingReq_flush (s : Ctrl) (env : Env) (pkt : Packet)
    (hslot : s.blocked_packet = none)
    (hcache : s.current_state = USING_CACHE) (hacc : s.accountFlush = true) :
    handleTimingReq s env pkt =
      if env.sendTimingReq MemSidePort.cache_side_small flushPacket then
        some { ret := false
               state := { (mem_port_to_use s env.numSimulatedInsts false).state with
                          lastFlushReq := env.curTick, cacheFlushWait := true }
               trace := [Event.sendTimingReq MemSidePort.cache_side_small flushPacket true] }
      else none := by
  have hgate : ((mem_port_to_use s env.numSimulatedInsts false).needCacheFlush
      && (mem_port_to_use s env.numSimulatedInsts false).state.accountFlush) = true := by
    rw [mem_port_to_use_needCacheFlush, mem_port_to_use_state]
    simp [hcache, hacc]
  simp only [handleTimingReq, hslot, Option.isSome_none, Bool.false_eq_true, if_false, hgate,
    if_true]
  cases env.sendTimingReq MemSidePort.cache_side_small flushPacket <;> simp

theorem recvReqRetry_blocked (port : MemSidePort) (s : Ctrl) (env : Env) (p : Packet)
    (hslot : s.blocked_packet = some p) :
    recvReqRetry port s env =
      some { ret := ()
             state := { s with
               blocked_packet := if env.sendTimingReq port p then none else some p
               needCPURetry := false }
             trace := Event.sendTimingReq port p (env.sendTimingReq port p) ::
               (if s.needCPURetry then [Event.sendRetryReq] else []) } := by
  cases s with
  | mk bp cs lsd lfr jd cfw ncr af nf =>
    simp only at hslot
    subst hslot
    cases hr : env.sendTimingReq port p <;> cases ncr <;> simp [recvReqRetry, hr]

theorem recvReqRetry_empty (port : MemSidePort) (s : Ctrl) (env : Env)
    (hslot : s.blocked_packet = none) : recvReqRetry port s env = none := by
  simp [recvReqRetry, hslot]

theorem notifyFlush_blocked_packet (s : Ctrl) :
    (notifyFlush s).state.blocked_packet = s.blocked_packet := by
  unfold notifyFlush
  split <;> rfl

theorem notifyFlush_needCPURetry (s : Ctrl) :
    (notifyFlush s).state.needCPURetry = s.needCPURetry := by
  unfold notifyFlush
  split <;> rfl

theorem notifyFlush_current_state (s : Ctrl) :
    (notifyFlush s).state.current_state = s.current_state := by
  unfold notifyFlush
  split <;> rfl

theorem handleTimingReq_empty_cases (s : Ctrl) (env : Env) (pkt : Packet)
    (hslot : s.blocked_packet = none) (o : Outcome Bool)
    (h : handleTimingReq s env pkt = some o) :
    (o.ret = false ∧ o.state.blocked_packet = none ∧ o.state.needCPURetry = s.needCPURetry ∧
      s.current_state = USING_CACHE ∧
      o.trace = [Event.sendTimingReq MemSidePort.cache_side_small flushPacket true]) ∨
    (o.ret = true ∧ o.state.needCPURetry = s.needCPURetry ∧
      o.state.cacheFlushWait = s.cacheFlushWait ∧
      o.state.blocked_packet =
        (if env.sendTimingReq MemSidePort.mem_side pkt then none else some pkt) ∧
      o.trace = [Event.sendTimingReq MemSidePort.mem_side pkt
        (env.sendTimingReq MemSidePort.mem_side pkt)]) := by
  by_cases hf : s.current_state = USING_CACHE ∧ s.accountFlush = true
  · rw [handleTimingReq_flush s env pkt hslot hf.1 hf.2] at h
    cases hr : env.sendTimingReq MemSidePort.cache_side_small flushPacket
    · simp [hr] at h
    · simp only [hr, if_true, Option.some.injEq] at h
      subst h
      left
      simp [mem_port_to_use_state, hslot, hf.1]
  · have hnf : s.current_state ≠ USING_CACHE ∨ s.accountFlush = false := by
      by_cases hc : s.current_state = USING_CACHE
      · right
        cases ha : s.accountFlush
        · rfl
        · exact absurd ⟨hc, ha⟩ hf
      · exact Or.inl hc
    rw [handleTimingReq_dispatch s env pkt hslot hnf] at h
    simp only [Option.some.injEq] at h
    subst h
    right
    cases hr : env.sendTimingReq MemSidePort.mem_side pkt <;>
      simp [mem_port_to_use_state, hslot]

theorem step_balance (s : Ctrl) (env : Env) (c : Call)
    (hcs : s.current_state = USING_NONE)
    (hg : ∀ port, c = Call.recvReqRetry port → s.blocked_packet.isSome = true) :
    ∃ o : Outcome (Option Bool), step s env c = some o ∧
      o.state.current_state = USING_NONE ∧
      s.blocked_packet.toList ++
          Record.handedOver { call := c, ret := o.ret, trace := o.trace } =
        acceptedSends o.trace ++ o.state.blocked_packet.toList := by
  cases c with
  | handleTimingReq pkt =>
    cases hb : s.blocked_packet with
    | some p0 =>
      refine ⟨_, by simp only [step, handleTimingReq_blocked s env pkt p0 hb]; rfl, ?_, ?_⟩
      · exact hcs
      · simp [Record.handedOver, acceptedSends, hb]
    | none =>
      have hnf : s.current_state ≠ USING_CACHE ∨ s.accountFlush = false :=
        Or.inl (by rw [hcs]; decide)
      refine ⟨_, by simp only [step, handleTimingReq_dispatch s env pkt hb hnf]; rfl, ?_, ?_⟩
      · cases env.sendTimingReq MemSidePort.mem_side pkt <;> simp [mem_port_to_use_state]
      · cases hr : env.sendTimingReq MemSidePort.mem_side pkt <;>
          simp [Record.handedOver, acceptedSends, Event.acceptedSend, mem_port_to_use_state, hb]
  | recvReqRetry port =>
    cases hb : s.blocked_packet with
    | none => simp [hb] at hg
    | some p0 =>
      refine ⟨_, by simp only [step, recvReqRetry_blocked port s env p0 hb]; rfl, ?_, ?_⟩
      · exact hcs
      · cases hr : env.sendTimingReq port p0 <;> cases hn : s.needCPURetry <;>
          simp [Record.handedOver, acceptedSends, Event.acceptedSend]
  | notifyFlush =>
    refine ⟨_, by simp only [step]; rfl, ?_, ?_⟩
    · simp only [notifyFlush_current_state, hcs]
    · simp only [notifyFlush_blocked_packet, Record.handedOver, List.append_nil]
      unfold notifyFlush
      split <;> simp [acceptedSends, Event.acceptedSend]
  | handleRecvTimingResp pkt =>
    refine ⟨_, by simp only [step]; rfl, ?_, ?_⟩
    · exact hcs
    · simp [Record.handedOver, handleRecvTimingResp, acceptedSends, Event.acceptedSend]

theorem acceptedSends_append (t1 t2 : List Event) :
    acceptedSends (t1 ++ t2) = acceptedSends t1 ++ acceptedSends t2 := by
  induction t1 with
  | nil => rfl
  | cons e rest ih => simp [acceptedSends, ih]

theorem run_balance (evs : List (Env × Call)) :
    ∀ s : Ctrl, s.current_state = USING_NONE → retryWhenBlocked s evs = true →
      ∃ s2 log, run s evs = some (s2, log) ∧
        s.blocked_packet.toList ++ acceptedUpstream log =
          acceptedSends (traceOf log) ++ s2.blocked_packet.toList := by
  induction evs with
  | nil =>
    intro s _ _
    exact ⟨s, [], rfl, by simp [acceptedUpstream, traceOf, acceptedSends]⟩
  | cons ev rest ih =>
    intro s hcs hg
    obtain ⟨env, c⟩ := ev
    have hguard : ∀ port, c = Call.recvReqRetry port → s.blocked_packet.isSome = true := by
      intro port hc
      subst hc
      simp only [retryWhenBlocked, Bool.and_eq_true] at hg
      exact hg.1
    obtain ⟨o, hstep, hcs2, hbal⟩ := step_balance s env c hcs hguard
    have hg2 : retryWhenBlocked o.state rest = true := by
      simp only [retryWhenBlocked, hstep, Bool.and_eq_true] at hg
      exact hg.2
    obtain ⟨s2, log, hrun, hbal2⟩ := ih o.state hcs2 hg2
    refine ⟨s2, { call := c, ret := o.ret, trace := o.trace } :: log, ?_, ?_⟩
    · simp only [run, hstep, hrun]
    · simp only [acceptedUpstream, traceOf, acceptedSends_append]
      rw [← List.append_assoc, hbal, List.append_assoc, hbal2, List.append_assoc]

theorem step_retry_flag (s : Ctrl) (env : Env) (c : Call) (o : Outcome (Option Bool))
    (hinv : s.needCPURetry = true → s.blocked_packet.isSome = true)
    (h : step s env c = some o) :
    o.state.needCPURetry = true → o.state.blocked_packet.isSome = true := by
  cases c with
  | handleTimingReq pkt =>
    simp only [step] at h
    cases hh : handleTimingReq s env pkt with
    | none => simp [hh] at h
    | some o1 =>
      simp only [hh, Option.some.injEq] at h
      subst h
      cases hb : s.blocked_packet with
      | some p0 =>
        rw [handleTimingReq_blocked s env pkt p0 hb] at hh
        simp only [Option.some.injEq] at hh
        subst hh
        intro _
        simp [hb]
      | none =>
        have hoff : s.needCPURetry = false := by
          cases hn : s.needCPURetry
          · rfl
          · simpa [hb] using hinv hn
        rcases handleTimingReq_empty_cases s env pkt hb o1 hh with hc | hc
        · intro hn
          rw [hc.2.2.1, hoff] at hn
          cases hn
        · intro hn
          rw [hc.2.1, hoff] at hn
          cases hn
  | recvReqRetry port =>
    simp only [step] at h
    cases hb : s.blocked_packet with
    | none => simp [recvReqRetry_empty port s env hb] at h
    | some p0 =>
      simp only [recvReqRetry_blocked port s env p0 hb, Option.some.injEq] at h
      subst h
      intro hn
      cases hn
  | notifyFlush =>
    simp only [step, Option.some.injEq] at h
    subst h
    simpa only [notifyFlush_needCPURetry, notifyFlush_blocked_packet] using hinv
  | handleRecvTimingResp pkt =>
    simp only [step, handleRecvTimingResp, Option.some.injEq] at h
    subst h
    exact hinv

theorem handleTimingReq_flushWait (s : Ctrl) (env : Env) (pkt : Packet)
    (hwait : s.cacheFlushWait = true) :
    handleTimingReq s env pkt =
      (handleTimingReq { s with cacheFlushWait := false } env pkt).map Outcome.withFlushWait := by
  cases s with
  | mk bp cs lsd lfr jd cfw ncr af nf =>
    simp only at hwait
    subst hwait
    cases bp with
    | some p0 => simp [handleTimingReq, Outcome.withFlushWait]
    | none =>
      by_cases hf : cs = USING_CACHE ∧ af = true
      · rw [handleTimingReq_flush _ env pkt rfl hf.1 hf.2,
          handleTimingReq_flush _ env pkt rfl hf.1 hf.2]
        cases env.sendTimingReq MemSidePort.cache_side_small flushPacket <;>
          simp [Outcome.withFlushWait, mem_port_to_use_state]
      · have hnf : cs ≠ USING_CACHE ∨ af = false := by
          by_cases hc : cs = USING_CACHE
          · right
            cases af
            · rfl
            · exact absurd ⟨hc, rfl⟩ hf
          · exact Or.inl hc
        rw [handleTimingReq_dispatch _ env pkt rfl hnf, handleTimingReq_dispatch _ env pkt rfl hnf]
        cases env.sendTimingReq MemSidePort.mem_side pkt <;>
          simp [Outcome.withFlushWait, mem_port_to_use_state]

theorem recvReqRetry_flushWait (port : MemSidePort) (s : Ctrl) (env : Env)
    (hwait : s.cacheFlushWait = true) :
    recvReqRetry port s env =
      (recvReqRetry port { s with cacheFlushWait := false } env).map Outcome.withFlushWait := by
  cases s with
  | mk bp cs lsd lfr jd cfw ncr af nf =>
    simp only at hwait
    subst hwait
    cases bp with
    | none => simp [recvReqRetry]
    | some p0 =>
      rw [recvReqRetry_blocked port _ env p0 rfl, recvReqRetry_blocked port _ env p0 rfl]
      simp [Outcome.withFlushWait]

theorem step_keeps_flushWait (s : Ctrl) (env : Env) (c : Call) (o : Outcome (Option Bool))
    (hwait : s.cacheFlushWait = true) (h : step s env c = some o)
    (hclear : o.state.cacheFlushWait = false) : c = Call.notifyFlush := by
  cases c with
  | handleTimingReq pkt =>
    simp only [step, handleTimingReq_flushWait s env pkt hwait] at h
    cases hh : handleTimingReq { s with cacheFlushWait := false } env pkt with
    | none => simp [hh] at h
    | some o1 =>
      simp only [hh, Option.map_some', Option.some.injEq] at h
      subst h
      simp [Outcome.withFlushWait] at hclear
  | recvReqRetry port =>
    simp only [step, recvReqRetry_flushWait port s env hwait] at h
    cases hh : recvReqRetry port { s with cacheFlushWait := false } env with
    | none => simp [hh] at h
    | some o1 =>
      simp only [hh, Option.map_some', Option.some.injEq] at h
      subst h
      simp [Outcome.withFlushWait] at hclear
  | notifyFlush => rfl
  | handleRecvTimingResp pkt =>
    simp only [step, handleRecvTimingResp, Option.some.injEq] at h
    subst h
    rw [hwait] at hclear
    cases hclear

theorem run_submissions_blocked (subs : List (Env × Packet)) :
    ∀ (s : Ctrl) (b : Packet), s.blocked_packet = some b →
      ∃ log, run s (submissions subs) =
          some (if subs.isEmpty then s else { s with needCPURetry := true }, log) ∧
        log.length = subs.length ∧ allRejectedSilently log = true := by
  induction subs with
  | nil =>
    intro s b _
    exact ⟨[], rfl, rfl, rfl⟩
  | cons e rest ih =>
    intro s b hb
    obtain ⟨log, hrun, hlen, hall⟩ := ih { s with needCPURetry := true } b hb
    refine ⟨{ call := Call.handleTimingReq e.2, ret := some false, trace := [] } :: log, ?_, ?_, ?_⟩
    · simp only [submissions, List.map_cons, run, step, handleTimingReq_blocked s e.1 e.2 b hb]
      simp only [submissions] at hrun
      rw [hrun]
      cases rest <;> simp
    · simp [hlen]
    · simp [allRejectedSilently, hall]

theorem step_flush_facts (s : Ctrl) (env : Env) (c : Call)
    (hg : ∀ port, c = Call.recvReqRetry port → s.blocked_packet.isSome = true)
    (hsent : env.sendTimingReq MemSidePort.cache_side_small flushPacket = true) :
    ∃ o : Outcome (Option Bool), step s env c = some o ∧
      o.state.accountFlush = s.accountFlush ∧
      Record.issuedFlush { call := c, ret := o.ret, trace := o.trace } = triggersFlush s c ∧
      (submittedOnEmptySlot s c = true → o.state.current_state = USING_NONE) ∧
      (submittedOnEmptySlot s c = false → o.state.current_state = s.current_state) ∧
      (c.isNormal = true → holdsNormal s = true →
        o.trace.countP Event.isFlushSend = (if triggersFlush s c then 1 else 0) ∧
        holdsNormal o.state = true) := by
  cases c with
  | handleTimingReq pkt =>
    cases hb : s.blocked_packet with
    | some p0 =>
      refine ⟨_, by simp only [step, handleTimingReq_blocked s env pkt p0 hb]; rfl, ?_⟩
      simp [Record.issuedFlush, triggersFlush, submittedOnEmptySlot, hb, holdsNormal]
    | none =>
      by_cases hf : s.current_state = USING_CACHE ∧ s.accountFlush = true
      · have hfl := handleTimingReq_flush s env pkt hb hf.1 hf.2
        rw [hsent, if_pos rfl] at hfl
        refine ⟨_, by simp only [step, hfl]; rfl, ?_⟩
        simp [Record.issuedFlush, triggersFlush, submittedOnEmptySlot, hb, holdsNormal, hf.1,
          hf.2, mem_port_to_use_state, Event.isFlushSend, flushPacket]
      · have hnf : s.current_state ≠ USING_CACHE ∨ s.accountFlush = false := by
          by_cases hc : s.current_state = USING_CACHE
          · right
            cases ha : s.accountFlush
            · rfl
            · exact absurd ⟨hc, ha⟩ hf
          · exact Or.inl hc
        have htrig : (decide (s.current_state = USING_CACHE) && s.accountFlush) = false := by
          rcases hnf with h | h
          · simp [h]
          · simp [h]
        refine ⟨_, by simp only [step, handleTimingReq_dispatch s env pkt hb hnf]; rfl, ?_⟩
        cases hr : env.sendTimingReq MemSidePort.mem_side pkt <;>
          simp [Record.issuedFlush, triggersFlush, submittedOnEmptySlot, hb, holdsNormal,
            mem_port_to_use_state, Event.isFlushSend, Call.isNormal, htrig]
  | recvReqRetry port =>
    cases hb : s.blocked_packet with
    | none => simp [hb] at hg
    | some p0 =>
      refine ⟨_, by simp only [step, recvReqRetry_blocked port s env p0 hb]; rfl, ?_⟩
      cases hr : env.sendTimingReq port p0 <;> cases hn : s.needCPURetry <;>
        simp [Record.issuedFlush, triggersFlush, submittedOnEmptySlot, hb, holdsNormal,
          Event.isFlushSend, Call.isNormal]
  | notifyFlush =>
    refine ⟨_, by simp only [step]; rfl, ?_⟩
    cases hw : s.cacheFlushWait <;>
      simp [Record.issuedFlush, triggersFlush, submittedOnEmptySlot, holdsNormal,
        Event.isFlushSend, Call.isNormal, notifyFlush, hw]
  | handleRecvTimingResp pkt =>
    refine ⟨_, by simp only [step]; rfl, ?_⟩
    simp [Record.issuedFlush, triggersFlush, submittedOnEmptySlot, holdsNormal,
      Event.isFlushSend, Call.isNormal, handleRecvTimingResp]

theorem run_flush_count (evs : List (Env × Call)) :
    ∀ s : Ctrl,
      (s.current_state = USING_CACHE ∧ s.accountFlush = true) ∨ s.current_state = USING_NONE →
      retryWhenBlocked s evs = true → flushSendsAccepted evs = true →
      ∃ s2 log, run s evs = some (s2, log) ∧
        (s.current_state = USING_NONE → flushesIssued log = 0) ∧
        (s.current_state = USING_CACHE →
          flushesIssued log ≤ 1 ∧ (0 < emptySlotSubmissions s evs → flushesIssued log = 1)) ∧
        (holdsNormal s = true → normalRequests evs = true →
          (traceOf log).countP Event.isFlushSend = flushesIssued log) := by
  induction evs with
  | nil =>
    intro s _ _ _
    exact ⟨s, [], rfl, by simp [flushesIssued, traceOf, emptySlotSubmissions]⟩
  | cons ev rest ih =>
    intro s hst hg hsent
    obtain ⟨env, c⟩ := ev
    have hguard : ∀ port, c = Call.recvReqRetry port → s.blocked_packet.isSome = true := by
      intro port hc
      subst hc
      simp only [retryWhenBlocked, Bool.and_eq_true] at hg
      exact hg.1
    simp only [flushSendsAccepted, Bool.and_eq_true] at hsent
    obtain ⟨o, hstep, haf, hiss, hempty, hnonempty, hnorm⟩ :=
      step_flush_facts s env c hguard hsent.1
    have hg2 : retryWhenBlocked o.state rest = true := by
      simp only [retryWhenBlocked, hstep, Bool.and_eq_true] at hg
      exact hg.2
    have hst2 : (o.state.current_state = USING_CACHE ∧ o.state.accountFlush = true) ∨
        o.state.current_state = USING_NONE := by
      cases hsub : submittedOnEmptySlot s c
      · rw [hnonempty hsub, haf]
        exact hst
      · exact Or.inr (hempty hsub)
    obtain ⟨s2, log, hrun, hnone, hcache, hcount⟩ := ih o.state hst2 hg2 hsent.2
    refine ⟨s2, { call := c, ret := o.ret, trace := o.trace } :: log, ?_, ?_, ?_, ?_⟩
    · simp only [run, hstep, hrun]
    · intro hcs
      have hcs2 : o.state.current_state = USING_NONE := by
        cases hsub : submittedOnEmptySlot s c
        · rw [hnonempty hsub, hcs]
        · exact hempty hsub
      simp [flushesIssued, hiss, triggersFlush, hcs, USING_NONE, USING_CACHE, hnone hcs2]
    · intro hcs
      have hacc : s.accountFlush = true := by
        rcases hst with h | h
        · exact h.2
        · rw [hcs] at h
          exact absurd h (by decide)
      cases hsub : submittedOnEmptySlot s c
      · have hcs2 : o.state.current_state = USING_CACHE := by rw [hnonempty hsub, hcs]
        simpa [flushesIssued, hiss, triggersFlush, hsub, emptySlotSubmissions, hstep]
          using hcache hcs2
      · simp [flushesIssued, hiss, triggersFlush, hsub, hcs, hacc, hnone (hempty hsub)]
    · intro hn hreq
      simp only [normalRequests, Bool.and_eq_true] at hreq
      obtain ⟨h1, h2⟩ := hnorm hreq.1 hn
      simp only [traceOf, List.countP_append, h1, flushesIssued, hiss, hcount h2 hreq.2]

theorem step_owed (s : Ctrl) (env : Env) (c : Call) (owed : Nat)
    (hcs : s.current_state = USING_NONE)
    (hle : owed ≤ 1) (hocc : 0 < owed → s.blocked_packet.isSome = true)
    (hdisc : ∀ port, c = Call.recvReqRetry port → 0 < owed) :
    ∃ o : Outcome (Option Bool), step s env c = some o ∧
      o.state.current_state = USING_NONE ∧
      owedAfter owed c o.trace ≤ 1 ∧
      (0 < owedAfter owed c o.trace → o.state.blocked_packet.isSome = true) := by
  cases c with
  | handleTimingReq pkt =>
    cases hb : s.blocked_packet with
    | some p0 =>
      refine ⟨_, by simp only [step, handleTimingReq_blocked s env pkt p0 hb]; rfl, hcs, ?_, ?_⟩
      · simpa [owedAfter] using hle
      · simp [hb]
    | none =>
      have hzero : owed = 0 := by
        rcases Nat.eq_zero_or_pos owed with h | h
        · exact h
        · simpa [hb] using hocc h
      have hnf : s.current_state ≠ USING_CACHE ∨ s.accountFlush = false :=
        Or.inl (by rw [hcs]; decide)
      refine ⟨_, by simp only [step, handleTimingReq_dispatch s env pkt hb hnf]; rfl, ?_, ?_, ?_⟩
      · cases env.sendTimingReq MemSidePort.mem_side pkt <;> simp [mem_port_to_use_state]
      · cases env.sendTimingReq MemSidePort.mem_side pkt <;>
          simp [owedAfter, hzero, Event.isRejectedSend]
      · cases env.sendTimingReq MemSidePort.mem_side pkt <;>
          simp [owedAfter, hzero, Event.isRejectedSend]
  | recvReqRetry port =>
    have hpos : 0 < owed := hdisc port rfl
    have hone : owed = 1 := Nat.le_antisymm hle hpos
    cases hb : s.blocked_packet with
    | none => simpa [hb] using hocc hpos
    | some p0 =>
      refine ⟨_, by simp only [step, recvReqRetry_blocked port s env p0 hb]; rfl, hcs, ?_, ?_⟩
      · cases env.sendTimingReq port p0 <;> cases s.needCPURetry <;>
          simp [owedAfter, hone, Event.isRejectedSend]
      · cases env.sendTimingReq port p0 <;> cases s.needCPURetry <;>
          simp [owedAfter, hone, Event.isRejectedSend]
  | notifyFlush =>
    refine ⟨_, by simp only [step]; rfl, ?_, ?_, ?_⟩
    · simp only [notifyFlush_current_state, hcs]
    · cases hw : s.cacheFlushWait <;>
        simpa [owedAfter, notifyFlush, hw, Event.isRejectedSend] using hle
    · cases hw : s.cacheFlushWait <;>
        simpa [owedAfter, notifyFlush, hw, Event.isRejectedSend] using hocc
  | handleRecvTimingResp pkt =>
    refine ⟨_, by simp only [step]; rfl, hcs, ?_, ?_⟩
    · simpa [owedAfter, handleRecvTimingResp, Event.isRejectedSend] using hle
    · simpa [owedAfter, handleRecvTimingResp, Event.isRejectedSend] using hocc

theorem run_owed (evs : List (Env × Call)) :
    ∀ (owed : Nat) (s : Ctrl), s.current_state = USING_NONE → owed ≤ 1 →
      (0 < owed → s.blocked_packet.isSome = true) →
      retryAfterRejection owed s evs = true → retryWhenBlocked s evs = true := by
  induction evs with
  | nil =>
    intro _ _ _ _ _ _
    rfl
  | cons ev rest ih =>
    intro owed s hcs hle hocc hd
    obtain ⟨env, c⟩ := ev
    have hdisc : ∀ port, c = Call.recvReqRetry port → 0 < owed := by
      intro port hc
      subst hc
      simp only [retryAfterRejection, Bool.and_eq_true, decide_eq_true_eq] at hd
      exact hd.1
    obtain ⟨o, hstep, hcs2, hle2, hocc2⟩ := step_owed s env c owed hcs hle hocc hdisc
    have hd2 : retryAfterRejection (owedAfter owed c o.trace) o.state rest = true := by
      simp only [retryAfterRejection, hstep, Bool.and_eq_true] at hd
      exact hd.2
    have hrest := ih (owedAfter owed c o.trace) o.state hcs2 hle2 hocc2 hd2
    simp only [retryWhenBlocked, hstep, hrest, Bool.and_true]
    cases c with
    | recvReqRetry port => exact hocc (hdisc port rfl)
    | handleTimingReq pkt => rfl
    | notifyFlush => rfl
    | handleRecvTimingResp pkt => rfl

theorem step_stays_direct (s : Ctrl) (env : Env) (c : Call) (o : Outcome (Option Bool))
    (hcs : s.current_state = USING_NONE) (hw : s.cacheFlushWait = false)
    (h : step s env c = some o) :
    o.state.current_state = USING_NONE ∧ o.state.cacheFlushWait = false ∧
      Record.issuedFlush { call := c, ret := o.ret, trace := o.trace } = false := by
  cases c with
  | handleTimingReq pkt =>
    cases hb : s.blocked_packet with
    | some p0 =>
      simp only [step, handleTimingReq_blocked s env pkt p0 hb, Option.some.injEq] at h
      subst h
      simp [hcs, hw, Record.issuedFlush]
    | none =>
      have hnf : s.current_state ≠ USING_CACHE ∨ s.accountFlush = false :=
        Or.inl (by rw [hcs]; decide)
      simp only [step, handleTimingReq_dispatch s env pkt hb hnf, Option.some.injEq] at h
      subst h
      cases env.sendTimingReq MemSidePort.mem_side pkt <;>
        simp [mem_port_to_use_state, hw, Record.issuedFlush]
  | recvReqRetry port =>
    cases hb : s.blocked_packet with
    | none => simp [step, recvReqRetry_empty port s env hb] at h
    | some p0 =>
      simp only [step, recvReqRetry_blocked port s env p0 hb, Option.some.injEq] at h
      subst h
      simp [hcs, hw, Record.issuedFlush]
  | notifyFlush =>
    simp only [step, Option.some.injEq] at h
    subst h
    simp [notifyFlush, hw, hcs, Record.issuedFlush]
  | handleRecvTimingResp pkt =>
    simp only [step, handleRecvTimingResp, Option.some.injEq] at h
    subst h
    simp [hcs, hw, Record.issuedFlush]

theorem reachable_direct (accountFlush : Bool) (s : Ctrl) (hreach : Reachable accountFlush s) :
    s.current_state = USING_NONE ∧ s.cacheFlushWait = false := by
  induction hreach with
  | init => exact ⟨rfl, rfl⟩
  | step s0 env c o _ hstep ih =>
    exact ⟨(step_stays_direct s0 env c o ih.1 ih.2 hstep).1,
      (step_stays_direct s0 env c o ih.1 ih.2 hstep).2.1⟩

/-! ## The claims -/

/-- C1: with an empty blocked slot and no flush triggered, `handleTimingReq pkt`
returns `true` and makes exactly one port call, the send of `pkt` on the port
that `mem_port_to_use` selected, whatever the answer; afterwards the slot
holds `pkt` if the send was rejected and is empty if it was accepted, and
`needCPURetry` and `cacheFlushWait` are as before. -/
theorem C1_dispatch_absorbs_rejection (s : Ctrl) (env : Env) (pkt : Packet)
    (hslot : s.blocked_packet = none)
    (hnoflush : s.current_state = USING_NONE ∨ s.accountFlush = false) :
    ∃ o : Outcome Bool, handleTimingReq s env pkt = some o ∧
      o.ret = true ∧
      o.trace = [Event.sendTimingReq (mem_port_to_use s env.numSimulatedInsts false).port pkt
        (env.sendTimingReq (mem_port_to_use s env.numSimulatedInsts false).port pkt)] ∧
      (env.sendTimingReq (mem_port_to_use s env.numSimulatedInsts false).port pkt = false →
        o.state.blocked_packet = some pkt) ∧
      (env.sendTimingReq (mem_port_to_use s env.numSimulatedInsts false).port pkt = true →
        o.state.blocked_packet = none) ∧
      o.state.needCPURetry = s.needCPURetry ∧
      o.state.cacheFlushWait = s.cacheFlushWait := by
  have hnf : s.current_state ≠ USING_CACHE ∨ s.accountFlush = false := by
    rcases hnoflush with h | h
    · exact Or.inl (by rw [h]; decide)
    · exact Or.inr h
  refine ⟨_, handleTimingReq_dispatch s env pkt hslot hnf, ?_⟩
  simp only [mem_port_to_use_state, mem_port_to_use_port]
  cases hr : env.sendTimingReq MemSidePort.mem_side pkt <;> simp [hslot]

/-- C1 at the constructed controller, with a busy peer. -/
theorem C1_witness :
    (create true).blocked_packet = none ∧
    ((create true).current_state = USING_NONE ∨ (create true).accountFlush = false) ∧
    ∃ o : Outcome Bool, handleTimingReq (create true) envBusy (readPkt 64) = some o ∧
      o.ret = true ∧
      o.trace = [Event.sendTimingReq
        (mem_port_to_use (create true) envBusy.numSimulatedInsts false).port (readPkt 64)
        (envBusy.sendTimingReq
          (mem_port_to_use (create true) envBusy.numSimulatedInsts false).port (readPkt 64))] ∧
      (envBusy.sendTimingReq
          (mem_port_to_use (create true) envBusy.numSimulatedInsts false).port (readPkt 64) = false →
        o.state.blocked_packet = some (readPkt 64)) ∧
      (envBusy.sendTimingReq
          (mem_port_to_use (create true) envBusy.numSimulatedInsts false).port (readPkt 64) = true →
        o.state.blocked_packet = none) ∧
      o.state.needCPURetry = (create true).needCPURetry ∧
      o.state.cacheFlushWait = (create true).cacheFlushWait :=
  ⟨rfl, Or.inl rfl, C1_dispatch_absorbs_rejection (create true) envBusy (readPkt 64) rfl (Or.inl rfl)⟩

/-- C2: with the blocked slot occupied, `handleTimingReq pkt` returns `false`,
sets `needCPURetry`, makes no port call, and leaves `blocked_packet`,
`current_state`, `lastStatDump`, `lastFlushReq` and `cacheFlushWait` as they
were; the path policy is not evaluated: the outcome is the same for every
value of the instruction counter, the clock and the peers' answers. -/
theorem C2_overflow_rejected (s : Ctrl) (env : Env) (pkt : Packet)
    (hslot : s.blocked_packet.isSome = true) :
    ∃ o : Outcome Bool, handleTimingReq s env pkt = some o ∧
      o.ret = false ∧
      o.state.needCPURetry = true ∧
      o.trace = [] ∧
      o.state.blocked_packet = s.blocked_packet ∧
      o.state.current_state = s.current_state ∧
      o.state.lastStatDump = s.lastStatDump ∧
      o.state.lastFlushReq = s.lastFlushReq ∧
      o.state.cacheFlushWait = s.cacheFlushWait ∧
      ∀ env2 : Env, handleTimingReq s env2 pkt = some o := by
  obtain ⟨p, hp⟩ := Option.isSome_iff_exists.mp hslot
  refine ⟨_, handleTimingReq_blocked s env pkt p hp, rfl, rfl, rfl, rfl, rfl, rfl, rfl, rfl, ?_⟩
  intro env2
  exact handleTimingReq_blocked s env2 pkt p hp

/-- C2 at a controller whose slot holds a read of address 64. -/
theorem C2_witness :
    ({ create true with blocked_packet := some (readPkt 64) } : Ctrl).blocked_packet.isSome = true ∧
    ∃ o : Outcome Bool,
      handleTimingReq { create true with blocked_packet := some (readPkt 64) } envFree
        (readPkt 128) = some o ∧
      o.ret = false ∧
      o.state.needCPURetry = true ∧
      o.trace = [] ∧
      o.state.blocked_packet = some (readPkt 64) ∧
      o.state.current_state = USING_NONE ∧
      o.state.lastStatDump = 0 ∧
      o.state.lastFlushReq = 0 ∧
      o.state.cacheFlushWait = false ∧
      ∀ env2 : Env,
        handleTimingReq { create true with blocked_packet := some (readPkt 64) } env2
          (readPkt 128) = some o :=
  ⟨rfl, C2_overflow_rejected { create true with blocked_packet := some (readPkt 64) } envFree
    (readPkt 128) rfl⟩

/-- C3: with the blocked slot holding `p`, `recvReqRetry` on a port makes the
one downstream send of `p` on that port; the slot is empty afterwards if the
send was accepted and still holds `p` if it was rejected; one upstream retry
notification follows if `needCPURetry` was set and none otherwise; and
`needCPURetry` is false afterwards. -/
theorem C3_retry_resends_blocked (port : MemSidePort) (s : Ctrl) (env : Env) (p : Packet)
    (hslot : s.blocked_packet = some p) :
    ∃ o : Outcome Unit, recvReqRetry port s env = some o ∧
      o.trace = Event.sendTimingReq port p (env.sendTimingReq port p) ::
        (if s.needCPURetry then [Event.sendRetryReq] else []) ∧
      o.trace.count Event.sendRetryReq = (if s.needCPURetry then 1 else 0) ∧
      (env.sendTimingReq port p = true → o.state.blocked_packet = none) ∧
      (env.sendTimingReq port p = false → o.state.blocked_packet = some p) ∧
      o.state.needCPURetry = false := by
  refine ⟨_, recvReqRetry_blocked port s env p hslot, rfl, ?_, ?_, ?_, rfl⟩
  · cases s.needCPURetry <;> simp
  · intro h; simp [h]
  · intro h; simp [h]

/-- C3 at a controller whose slot holds a read of address 64 and whose retry
flag is set, with an accepting peer. -/
theorem C3_witness :
    ({ create true with blocked_packet := some (readPkt 64), needCPURetry := true } :
      Ctrl).blocked_packet = some (readPkt 64) ∧
    ∃ o : Outcome Unit,
      recvReqRetry MemSidePort.mem_side
        { create true with blocked_packet := some (readPkt 64), needCPURetry := true }
        envFree = some o ∧
      o.trace = Event.sendTimingReq MemSidePort.mem_side (readPkt 64)
          (envFree.sendTimingReq MemSidePort.mem_side (readPkt 64)) ::
        (if ({ create true with blocked_packet := some (readPkt 64), needCPURetry := true } :
          Ctrl).needCPURetry then [Event.sendRetryReq] else []) ∧
      o.trace.count Event.sendRetryReq =
        (if ({ create true with blocked_packet := some (readPkt 64), needCPURetry := true } :
          Ctrl).needCPURetry then 1 else 0) ∧
      (envFree.sendTimingReq MemSidePort.mem_side (readPkt 64) = true →
        o.state.blocked_packet = none) ∧
      (envFree.sendTimingReq MemSidePort.mem_side (readPkt 64) = false →
        o.state.blocked_packet = some (readPkt 64)) ∧
      o.state.needCPURetry = false :=
  ⟨rfl, C3_retry_resends_blocked MemSidePort.mem_side
    { create true with blocked_packet := some (readPkt 64), needCPURetry := true }
    envFree (readPkt 64) rfl⟩

/-- C4: in every step of the four handlers, the blocked slot goes from empty
to holding `q` only in a `handleTimingReq q` step whose one send was rejected;
it goes from holding `p` to empty only in a `recvReqRetry` step whose resend
of `p` was accepted; and a slot holding `p` never comes to hold another
request. -/
theorem C4_slot_transitions (s : Ctrl) (env : Env) (c : Call) (o : Outcome (Option Bool))
    (h : step s env c = some o) :
    (∀ q, s.blocked_packet = none → o.state.blocked_packet = some q →
      c = Call.handleTimingReq q ∧ ∃ port, o.trace = [Event.sendTimingReq port q false]) ∧
    (∀ p, s.blocked_packet = some p → o.state.blocked_packet = none →
      ∃ port, c = Call.recvReqRetry port ∧ Event.sendTimingReq port p true ∈ o.trace) ∧
    (∀ p q, s.blocked_packet = some p → o.state.blocked_packet = some q → q = p) := by
  cases c with
  | handleTimingReq pkt =>
    simp only [step] at h
    cases hh : handleTimingReq s env pkt with
    | none => simp [hh] at h
    | some o1 =>
      simp only [hh, Option.some.injEq] at h
      subst h
      cases hb : s.blocked_packet with
      | none =>
        refine ⟨?_, ?_, ?_⟩
        · intro q _ hq
          rcases handleTimingReq_empty_cases s env pkt hb o1 hh with hc | hc
          · simp [hc.2.1] at hq
          · obtain ⟨_, _, _, hbp, htr⟩ := hc
            simp only [hbp] at hq
            cases hr : env.sendTimingReq MemSidePort.mem_side pkt
            · simp only [hr, Bool.false_eq_true, if_false, Option.some.injEq] at hq
              subst hq
              exact ⟨rfl, MemSidePort.mem_side, by simp [htr, hr]⟩
            · simp [hr] at hq
        · intro p hp
          simp at hp
        · intro p q hp
          simp at hp
      | some p0 =>
        rw [handleTimingReq_blocked s env pkt p0 hb] at hh
        simp only [Option.some.injEq] at hh
        subst hh
        refine ⟨?_, ?_, ?_⟩
        · intro q hq
          simp at hq
        · intro p _ hn
          simp [hb] at hn
        · intro p q hp hq
          simp only [hb, Option.some.injEq] at hq
          simp only [Option.some.injEq] at hp
          rw [← hq, ← hp]
  | recvReqRetry port =>
    simp only [step] at h
    cases hb : s.blocked_packet with
    | none => simp [recvReqRetry_empty port s env hb] at h
    | some p0 =>
      simp only [recvReqRetry_blocked port s env p0 hb, Option.some.injEq] at h
      subst h
      refine ⟨?_, ?_, ?_⟩
      · intro q hq
        simp at hq
      · intro p hp hn
        simp only [Option.some.injEq] at hp
        subst hp
        cases hr : env.sendTimingReq port p0
        · simp [hr] at hn
        · exact ⟨port, rfl, by simp⟩
      · intro p q hp hq
        simp only [Option.some.injEq] at hp
        subst hp
        cases hr : env.sendTimingReq port p0
        · simp only [hr, Bool.false_eq_true, if_false, Option.some.injEq] at hq
          exact hq.symm
        · simp [hr] at hq
  | notifyFlush =>
    simp only [step, Option.some.injEq] at h
    subst h
    refine ⟨?_, ?_, ?_⟩
    · intro q hn hq
      simp only [notifyFlush_blocked_packet, hn] at hq
      simp at hq
    · intro p hp hn
      simp only [notifyFlush_blocked_packet, hp] at hn
      simp at hn
    · intro p q hp hq
      simp only [notifyFlush_blocked_packet, hp, Option.some.injEq] at hq
      exact hq.symm
  | handleRecvTimingResp pkt =>
    simp only [step, handleRecvTimingResp, Option.some.injEq] at h
    subst h
    refine ⟨?_, ?_, ?_⟩
    · intro q hn hq
      simp only [hn] at hq
      simp at hq
    · intro p hp hn
      simp only [hp] at hn
      simp at hn
    · intro p q hp hq
      simp only [hp, Option.some.injEq] at hq
      exact hq.symm

/-- C4 at the constructed controller: a submission whose send is rejected
fills the slot. -/
theorem C4_witness :
    step (create true) envBusy (Call.handleTimingReq (readPkt 64)) =
      some { ret := some true
             state := { create true with blocked_packet := some (readPkt 64) }
             trace := [Event.sendTimingReq MemSidePort.mem_side (readPkt 64) false] } ∧
    (∀ q, (create true).blocked_packet = none → some (readPkt 64) = some q →
      Call.handleTimingReq (readPkt 64) = Call.handleTimingReq q ∧
        ∃ port, [Event.sendTimingReq MemSidePort.mem_side (readPkt 64) false] =
          [Event.sendTimingReq port q false]) ∧
    (∀ p, (create true).blocked_packet = some p → some (readPkt 64) = none →
      ∃ port, Call.handleTimingReq (readPkt 64) = Call.recvReqRetry port ∧
        Event.sendTimingReq port p true ∈
          [Event.sendTimingReq MemSidePort.mem_side (readPkt 64) false]) ∧
    (∀ p q, (create true).blocked_packet = some p → some (readPkt 64) = some q → q = p) :=
  ⟨rfl, C4_slot_transitions (create true) envBusy (Call.handleTimingReq (readPkt 64))
    { ret := some true
      state := { create true with blocked_packet := some (readPkt 64) }
      trace := [Event.sendTimingReq MemSidePort.mem_side (readPkt 64) false] } rfl⟩

/-- C5: from the constructed controller, for every finite sequence of handler
calls in which `recvReqRetry` is delivered only while the blocked slot is
occupied, whatever the peers answer: the run completes, and the requests for
which `handleTimingReq` returned `true` are, in order, the requests whose
send a downstream port accepted, followed by the request in the blocked slot
if there is one. -/
theorem C5_accepted_requests_conserved (accountFlush : Bool) (evs : List (Env × Call))
    (hretry : retryWhenBlocked (create accountFlush) evs = true) :
    ∃ s log, run (create accountFlush) evs = some (s, log) ∧
      acceptedUpstream log = acceptedSends (traceOf log) ++ s.blocked_packet.toList := by
  obtain ⟨s, log, hrun, hbal⟩ := run_balance evs (create accountFlush) rfl hretry
  exact ⟨s, log, hrun, by simpa [create] using hbal⟩

/-- C5 on a run of four calls: a submission that is stored, one that is
rejected, the resend of the stored one, and a submission that goes through. -/
theorem C5_witness :
    retryWhenBlocked (create true)
      [(envBusy, Call.handleTimingReq (readPkt 64)), (envFree, Call.handleTimingReq (readPkt 128)),
       (envFree, Call.recvReqRetry MemSidePort.mem_side),
       (envFree, Call.handleTimingReq (readPkt 192))] = true ∧
    ∃ s log, run (create true)
      [(envBusy, Call.handleTimingReq (readPkt 64)), (envFree, Call.handleTimingReq (readPkt 128)),
       (envFree, Call.recvReqRetry MemSidePort.mem_side),
       (envFree, Call.handleTimingReq (readPkt 192))] = some (s, log) ∧
      acceptedUpstream log = acceptedSends (traceOf log) ++ s.blocked_packet.toList :=
  ⟨rfl, C5_accepted_requests_conserved true
    [(envBusy, Call.handleTimingReq (readPkt 64)), (envFree, Call.handleTimingReq (readPkt 128)),
     (envFree, Call.recvReqRetry MemSidePort.mem_side),
     (envFree, Call.handleTimingReq (readPkt 192))] rfl⟩

/-- C6: in every state the handlers can bring the constructed controller to
(`recvReqRetry` runs only with an occupied slot, by its assertion),
`needCPURetry = true` implies that the blocked slot is occupied. -/
theorem C6_retry_flag_implies_blocked (accountFlush : Bool) (s : Ctrl)
    (hreach : Reachable accountFlush s) (hflag : s.needCPURetry = true) :
    s.blocked_packet.isSome = true := by
  induction hreach with
  | init => cases hflag
  | step s0 env c o _ hstep ih => exact step_retry_flag s0 env c o ih hstep hflag

/-- C6 at the state reached by a stored submission followed by a rejected one. -/
theorem C6_witness :
    Reachable true
      { create true with blocked_packet := some (readPkt 64), needCPURetry := true } ∧
    ({ create true with blocked_packet := some (readPkt 64), needCPURetry := true } :
      Ctrl).needCPURetry = true ∧
    ({ create true with blocked_packet := some (readPkt 64), needCPURetry := true } :
      Ctrl).blocked_packet.isSome = true :=
  have hreach : Reachable true
      { create true with blocked_packet := some (readPkt 64), needCPURetry := true } :=
    Reachable.step { create true with blocked_packet := some (readPkt 64) } envFree
      (Call.handleTimingReq (readPkt 128))
      { ret := some false
        state := { create true with blocked_packet := some (readPkt 64), needCPURetry := true }
        trace := [] }
      (Reachable.step (create true) envBusy (Call.handleTimingReq (readPkt 64))
        { ret := some true
          state := { create true with blocked_packet := some (readPkt 64) }
          trace := [Event.sendTimingReq MemSidePort.mem_side (readPkt 64) false] }
        Reachable.init rfl)
      rfl
  ⟨hreach, rfl, C6_retry_flag_implies_blocked true
    { create true with blocked_packet := some (readPkt 64), needCPURetry := true } hreach rfl⟩

/-- C7, the claim as stated fails: in the state reached from the constructed
controller by a stored submission and a rejected one, `recvReqRetry` with
the resend rejected sends the retry notification upstream while the blocked
slot still holds the stored request. -/
theorem C7_counterexample :
    step { create true with blocked_packet := some (readPkt 64), needCPURetry := true }
        envBusy (Call.recvReqRetry MemSidePort.mem_side) =
      some { ret := none
             state := { create true with blocked_packet := some (readPkt 64) }
             trace := [Event.sendTimingReq MemSidePort.mem_side (readPkt 64) false,
                       Event.sendRetryReq] } ∧
    Event.sendRetryReq ∈
      [Event.sendTimingReq MemSidePort.mem_side (readPkt 64) false, Event.sendRetryReq] ∧
    ({ create true with blocked_packet := some (readPkt 64) } : Ctrl).blocked_packet ≠ none :=
  ⟨rfl, by decide, by decide⟩

/-- C7, amended: a handler step that sends a retry notification upstream is
either a `recvReqRetry` step taken with `needCPURetry` set, after which the
blocked slot is empty exactly when the resend was accepted, or a
`notifyFlush` step taken with `cacheFlushWait` set, which leaves the blocked
slot as it was. -/
theorem C7_retry_notification_capacity (s : Ctrl) (env : Env) (c : Call)
    (o : Outcome (Option Bool)) (h : step s env c = some o)
    (hnotified : Event.sendRetryReq ∈ o.trace) :
    (∃ port p, c = Call.recvReqRetry port ∧ s.blocked_packet = some p ∧
      s.needCPURetry = true ∧
      (o.state.blocked_packet = none ↔ env.sendTimingReq port p = true)) ∨
    (c = Call.notifyFlush ∧ s.cacheFlushWait = true ∧
      o.state.blocked_packet = s.blocked_packet) := by
  cases c with
  | handleTimingReq pkt =>
    simp only [step] at h
    cases hh : handleTimingReq s env pkt with
    | none => simp [hh] at h
    | some o1 =>
      simp only [hh, Option.some.injEq] at h
      subst h
      cases hb : s.blocked_packet with
      | some p0 =>
        rw [handleTimingReq_blocked s env pkt p0 hb] at hh
        simp only [Option.some.injEq] at hh
        subst hh
        simp at hnotified
      | none =>
        rcases handleTimingReq_empty_cases s env pkt hb o1 hh with hc | hc
        · simp [hc.2.2.2.2] at hnotified
        · simp [hc.2.2.2.2] at hnotified
  | recvReqRetry port =>
    simp only [step] at h
    cases hb : s.blocked_packet with
    | none => simp [recvReqRetry_empty port s env hb] at h
    | some p0 =>
      simp only [recvReqRetry_blocked port s env p0 hb, Option.some.injEq] at h
      subst h
      left
      refine ⟨port, p0, rfl, rfl, ?_, ?_⟩
      · cases hn : s.needCPURetry
        · simp [hn] at hnotified
        · rfl
      · cases hr : env.sendTimingReq port p0 <;> simp
  | notifyFlush =>
    simp only [step, Option.some.injEq] at h
    subst h
    right
    refine ⟨rfl, ?_, notifyFlush_blocked_packet s⟩
    cases hw : s.cacheFlushWait
    · simp [notifyFlush, hw] at hnotified
    · rfl
  | handleRecvTimingResp pkt =>
    simp only [step, handleRecvTimingResp, Option.some.injEq] at h
    subst h
    simp at hnotified

/-- C7, amended, at a `recvReqRetry` step whose resend is accepted. -/
theorem C7_witness :
    step { create true with blocked_packet := some (readPkt 64), needCPURetry := true }
        envFree (Call.recvReqRetry MemSidePort.mem_side) =
      some { ret := none
             state := create true
             trace := [Event.sendTimingReq MemSidePort.mem_side (readPkt 64) true,
                       Event.sendRetryReq] } ∧
    Event.sendRetryReq ∈
      [Event.sendTimingReq MemSidePort.mem_side (readPkt 64) true, Event.sendRetryReq] ∧
    ((∃ port p, Call.recvReqRetry MemSidePort.mem_side = Call.recvReqRetry port ∧
      ({ create true with blocked_packet := some (readPkt 64), needCPURetry := true } :
        Ctrl).blocked_packet = some p ∧
      ({ create true with blocked_packet := some (readPkt 64), needCPURetry := true } :
        Ctrl).needCPURetry = true ∧
      ((create true).blocked_packet = none ↔ envFree.sendTimingReq port p = true)) ∨
    (Call.recvReqRetry MemSidePort.mem_side = Call.notifyFlush ∧
      ({ create true with blocked_packet := some (readPkt 64), needCPURetry := true } :
        Ctrl).cacheFlushWait = true ∧
      (create true).blocked_packet =
        ({ create true with blocked_packet := some (readPkt 64), needCPURetry := true } :
          Ctrl).blocked_packet)) :=
  ⟨rfl, by decide,
    C7_retry_notification_capacity
      { create true with blocked_packet := some (readPkt 64), needCPURetry := true }
      envFree (Call.recvReqRetry MemSidePort.mem_side)
      { ret := none
        state := create true
        trace := [Event.sendTimingReq MemSidePort.mem_side (readPkt 64) true,
                  Event.sendRetryReq] }
      rfl (by decide)⟩

/-- C8, the claim as stated fails: the controller whose cached path is active
answers a first submission by the flush (`cacheFlushWait` becomes true), and
a second submission made while the flush is pending is sent on `mem_side`,
although it is a read and not a flush request. -/
theorem C8_counterexample :
    handleTimingReq { create true with current_state := USING_CACHE } envFree (readPkt 64) =
      some { ret := false
             state := { create true with lastFlushReq := 7, cacheFlushWait := true }
             trace := [Event.sendTimingReq MemSidePort.cache_side_small flushPacket true] } ∧
    ({ create true with lastFlushReq := 7, cacheFlushWait := true } : Ctrl).cacheFlushWait = true ∧
    handleTimingReq { create true with lastFlushReq := 7, cacheFlushWait := true } envFree
        (readPkt 128) =
      some { ret := true
             state := { create true with lastFlushReq := 7, cacheFlushWait := true }
             trace := [Event.sendTimingReq MemSidePort.mem_side (readPkt 128) true] } ∧
    (readPkt 128).cmd ≠ MemCmd.FlushReq :=
  ⟨rfl, rfl, rfl, by decide⟩

/-- C8, amended: while `cacheFlushWait` is true, `handleTimingReq` and
`recvReqRetry` return, send and update the other fields exactly as they do
with `cacheFlushWait` false, and leave the flag true; with an empty slot and
no new flush triggered `handleTimingReq pkt` therefore sends `pkt` on
`mem_side`; and a handler step that ends with the flag false is a
`notifyFlush` step. -/
theorem C8_flush_wait_not_consulted (s : Ctrl) (env : Env) (pkt : Packet) (port : MemSidePort)
    (hwait : s.cacheFlushWait = true) :
    handleTimingReq s env pkt =
      (handleTimingReq { s with cacheFlushWait := false } env pkt).map Outcome.withFlushWait ∧
    recvReqRetry port s env =
      (recvReqRetry port { s with cacheFlushWait := false } env).map Outcome.withFlushWait ∧
    (s.blocked_packet = none → (s.current_state = USING_NONE ∨ s.accountFlush = false) →
      ∃ o : Outcome Bool, handleTimingReq s env pkt = some o ∧
        o.trace = [Event.sendTimingReq MemSidePort.mem_side pkt
          (env.sendTimingReq MemSidePort.mem_side pkt)]) ∧
    (notifyFlush s).state.cacheFlushWait = false ∧
    (∀ (c : Call) (o : Outcome (Option Bool)), step s env c = some o →
      o.state.cacheFlushWait = false → c = Call.notifyFlush) := by
  refine ⟨handleTimingReq_flushWait s env pkt hwait, recvReqRetry_flushWait port s env hwait,
    ?_, ?_, ?_⟩
  · intro hslot hnoflush
    have hnf : s.current_state ≠ USING_CACHE ∨ s.accountFlush = false := by
      rcases hnoflush with h | h
      · exact Or.inl (by rw [h]; decide)
      · exact Or.inr h
    exact ⟨_, handleTimingReq_dispatch s env pkt hslot hnf, rfl⟩
  · simp [notifyFlush, hwait]
  · intro c o hstep hclear
    exact step_keeps_flushWait s env c o hwait hstep hclear

/-- C8, amended, at the state a started flush leaves behind. -/
theorem C8_witness :
    ({ create true with lastFlushReq := 7, cacheFlushWait := true } : Ctrl).cacheFlushWait = true ∧
    (handleTimingReq { create true with lastFlushReq := 7, cacheFlushWait := true } envFree
        (readPkt 128) =
      (handleTimingReq
        { ({ create true with lastFlushReq := 7, cacheFlushWait := true } : Ctrl) with
          cacheFlushWait := false } envFree (readPkt 128)).map Outcome.withFlushWait ∧
    recvReqRetry MemSidePort.mem_side
        { create true with lastFlushReq := 7, cacheFlushWait := true } envFree =
      (recvReqRetry MemSidePort.mem_side
        { ({ create true with lastFlushReq := 7, cacheFlushWait := true } : Ctrl) with
          cacheFlushWait := false } envFree).map Outcome.withFlushWait ∧
    (({ create true with lastFlushReq := 7, cacheFlushWait := true } : Ctrl).blocked_packet = none →
      (({ create true with lastFlushReq := 7, cacheFlushWait := true } : Ctrl).current_state =
          USING_NONE ∨
        ({ create true with lastFlushReq := 7, cacheFlushWait := true } : Ctrl).accountFlush =
          false) →
      ∃ o : Outcome Bool,
        handleTimingReq { create true with lastFlushReq := 7, cacheFlushWait := true } envFree
          (readPkt 128) = some o ∧
        o.trace = [Event.sendTimingReq MemSidePort.mem_side (readPkt 128)
          (envFree.sendTimingReq MemSidePort.mem_side (readPkt 128))]) ∧
    (notifyFlush { create true with lastFlushReq := 7, cacheFlushWait := true }).state.cacheFlushWait
      = false ∧
    (∀ (c : Call) (o : Outcome (Option Bool)),
      step { create true with lastFlushReq := 7, cacheFlushWait := true } envFree c = some o →
      o.state.cacheFlushWait = false → c = Call.notifyFlush)) :=
  ⟨rfl, C8_flush_wait_not_consulted { create true with lastFlushReq := 7, cacheFlushWait := true }
    envFree (readPkt 128) MemSidePort.mem_side rfl⟩

/-- C9: with an empty blocked slot, `current_state = USING_CACHE`,
`accountFlush = true` and the flush send accepted, `handleTimingReq pkt`
returns `false`, sets `cacheFlushWait`, sets `lastFlushReq` to the current
tick and `current_state` to `USING_NONE`, and makes exactly one port call:
the send of the new `FlushReq` packet on `cache_side_small`. So `pkt` is not
sent; the slot stays empty and `needCPURetry` is as before. -/
theorem C9_flush_on_leaving_cache (s : Ctrl) (env : Env) (pkt : Packet)
    (hslot : s.blocked_packet = none)
    (hcache : s.current_state = USING_CACHE)
    (hacc : s.accountFlush = true)
    (hsent : env.sendTimingReq MemSidePort.cache_side_small flushPacket = true) :
    ∃ o : Outcome Bool, handleTimingReq s env pkt = some o ∧
      o.ret = false ∧
      o.state.cacheFlushWait = true ∧
      o.state.lastFlushReq = env.curTick ∧
      o.state.current_state = USING_NONE ∧
      o.trace = [Event.sendTimingReq MemSidePort.cache_side_small flushPacket true] ∧
      flushPacket.cmd = MemCmd.FlushReq ∧
      o.state.blocked_packet = none ∧
      o.state.needCPURetry = s.needCPURetry := by
  refine ⟨_, by rw [handleTimingReq_flush s env pkt hslot hcache hacc, hsent]; rfl, ?_⟩
  simp [mem_port_to_use_state, hslot, flushPacket]

/-- C9 at the constructed controller put on the cached path, with an
accepting peer and the clock at tick 7. -/
theorem C9_witness :
    ({ create true with current_state := USING_CACHE } : Ctrl).blocked_packet = none ∧
    ({ create true with current_state := USING_CACHE } : Ctrl).current_state = USING_CACHE ∧
    ({ create true with current_state := USING_CACHE } : Ctrl).accountFlush = true ∧
    envFree.sendTimingReq MemSidePort.cache_side_small flushPacket = true ∧
    ∃ o : Outcome Bool,
      handleTimingReq { create true with current_state := USING_CACHE } envFree (readPkt 64) =
        some o ∧
      o.ret = false ∧
      o.state.cacheFlushWait = true ∧
      o.state.lastFlushReq = envFree.curTick ∧
      o.state.current_state = USING_NONE ∧
      o.trace = [Event.sendTimingReq MemSidePort.cache_side_small flushPacket true] ∧
      flushPacket.cmd = MemCmd.FlushReq ∧
      o.state.blocked_packet = none ∧
      o.state.needCPURetry =
        ({ create true with current_state := USING_CACHE } : Ctrl).needCPURetry :=
  ⟨rfl, rfl, rfl, rfl,
    C9_flush_on_leaving_cache { create true with current_state := USING_CACHE } envFree
      (readPkt 64) rfl rfl rfl rfl⟩

/-- C10: with `cacheFlushWait = true`, `notifyFlush` clears `cacheFlushWait`,
makes exactly one port call, the retry notification to the originator, and
leaves `blocked_packet`, `current_state`, `needCPURetry` and `lastStatDump`
as they were. -/
theorem C10_notifyFlush_completes (s : Ctrl) (hwait : s.cacheFlushWait = true) :
    (notifyFlush s).state.cacheFlushWait = false ∧
    (notifyFlush s).trace = [Event.sendRetryReq] ∧
    (notifyFlush s).state.blocked_packet = s.blocked_packet ∧
    (notifyFlush s).state.current_state = s.current_state ∧
    (notifyFlush s).state.needCPURetry = s.needCPURetry ∧
    (notifyFlush s).state.lastStatDump = s.lastStatDump := by
  simp [notifyFlush, hwait]

/-- C10 at the state a started flush leaves behind. -/
theorem C10_witness :
    ({ create true with lastFlushReq := 7, cacheFlushWait := true } : Ctrl).cacheFlushWait = true ∧
    (notifyFlush { create true with lastFlushReq := 7, cacheFlushWait := true }).state.cacheFlushWait
      = false ∧
    (notifyFlush { create true with lastFlushReq := 7, cacheFlushWait := true }).trace =
      [Event.sendRetryReq] ∧
    (notifyFlush { create true with lastFlushReq := 7, cacheFlushWait := true }).state.blocked_packet
      = none ∧
    (notifyFlush { create true with lastFlushReq := 7, cacheFlushWait := true }).state.current_state
      = USING_NONE ∧
    (notifyFlush { create true with lastFlushReq := 7, cacheFlushWait := true }).state.needCPURetry
      = false ∧
    (notifyFlush { create true with lastFlushReq := 7, cacheFlushWait := true }).state.lastStatDump
      = 0 :=
  ⟨rfl, C10_notifyFlush_completes { create true with lastFlushReq := 7, cacheFlushWait := true }
    rfl⟩

/-- C11: with `cacheFlushWait = false`, `notifyFlush` leaves every field as it
was and makes no port call. Hence, from every state, a second `notifyFlush`
right after a first changes nothing and makes no port call, and the two
calls together send at most one retry notification. -/
theorem C11_notifyFlush_stray_is_noop (s : Ctrl) :
    (s.cacheFlushWait = false → (notifyFlush s).state = s ∧ (notifyFlush s).trace = []) ∧
    (notifyFlush (notifyFlush s).state).state = (notifyFlush s).state ∧
    (notifyFlush (notifyFlush s).state).trace = [] ∧
    ((notifyFlush s).trace ++ (notifyFlush (notifyFlush s).state).trace).count
      Event.sendRetryReq ≤ 1 := by
  cases hw : s.cacheFlushWait <;> simp [notifyFlush, hw]

/-- C11 at the constructed controller, where no flush is pending. -/
theorem C11_witness :
    (create true).cacheFlushWait = false ∧
    (notifyFlush (create true)).state = create true ∧
    (notifyFlush (create true)).trace = [] :=
  ⟨rfl, (C11_notifyFlush_stray_is_noop (create true)).1 rfl⟩

/-- C12: for every state, every value of the instruction counter and every
incoming value of the reference argument, `mem_port_to_use` returns
`mem_side` and leaves `current_state = USING_NONE`; the returned port is the
same for every other state (so for every `lastStatDump` and every previous
`current_state`) and every other counter value. -/
theorem C12_policy_selects_direct (s : Ctrl) (current_inst : Nat) (needCacheFlush : Bool) :
    (mem_port_to_use s current_inst needCacheFlush).port = MemSidePort.mem_side ∧
    (mem_port_to_use s current_inst needCacheFlush).state.current_state = USING_NONE ∧
    ∀ (s2 : Ctrl) (inst2 : Nat) (flush2 : Bool),
      (mem_port_to_use s2 inst2 flush2).port =
        (mem_port_to_use s current_inst needCacheFlush).port := by
  refine ⟨mem_port_to_use_port s current_inst needCacheFlush, ?_, ?_⟩
  · rw [mem_port_to_use_state]
  · intro s2 inst2 flush2
    rw [mem_port_to_use_port, mem_port_to_use_port]

/-- C13: with an empty blocked slot, `current_state = USING_CACHE` and
`accountFlush = true`, if the flush send on `cache_side_small` is rejected
then `handleTimingReq` has no result (its assertion fails); whenever it
does return, the flush send was accepted. -/
theorem C13_flush_send_rejected_is_fatal (s : Ctrl) (env : Env) (pkt : Packet)
    (hslot : s.blocked_packet = none)
    (hcache : s.current_state = USING_CACHE)
    (hacc : s.accountFlush = true) :
    (env.sendTimingReq MemSidePort.cache_side_small flushPacket = false →
      handleTimingReq s env pkt = none) ∧
    (∀ o : Outcome Bool, handleTimingReq s env pkt = some o →
      env.sendTimingReq MemSidePort.cache_side_small flushPacket = true) := by
  rw [handleTimingReq_flush s env pkt hslot hcache hacc]
  cases env.sendTimingReq MemSidePort.cache_side_small flushPacket <;> simp

/-- C13 at the constructed controller put on the cached path, with a busy peer. -/
theorem C13_witness :
    ({ create true with current_state := USING_CACHE } : Ctrl).blocked_packet = none ∧
    ({ create true with current_state := USING_CACHE } : Ctrl).current_state = USING_CACHE ∧
    ({ create true with current_state := USING_CACHE } : Ctrl).accountFlush = true ∧
    envBusy.sendTimingReq MemSidePort.cache_side_small flushPacket = false ∧
    handleTimingReq { create true with current_state := USING_CACHE } envBusy (readPkt 64) =
      none :=
  ⟨rfl, rfl, rfl, rfl,
    (C13_flush_send_rejected_is_fatal { create true with current_state := USING_CACHE } envBusy
      (readPkt 64) rfl rfl rfl).1 rfl⟩

/-- C14: `handleRecvTimingResp pkt` makes exactly one port call, the send of
`pkt` itself to the originator, returns the originator's answer, and leaves
every field of the controller as it was. -/
theorem C14_response_forwarded_verbatim (s : Ctrl) (env : Env) (pkt : Packet) :
    (handleRecvTimingResp s env pkt).trace =
      [Event.sendTimingResp pkt (env.sendTimingResp pkt)] ∧
    (handleRecvTimingResp s env pkt).ret = env.sendTimingResp pkt ∧
    (handleRecvTimingResp s env pkt).state = s :=
  ⟨rfl, rfl, rfl⟩

/-- C16: with the blocked slot holding `b`, `k ≥ 1` submissions in a row are
each answered `false` without any port call, and leave the state as it was
but for `needCPURetry = true`, so none of them is sent or stored and the
slot still holds `b`; the next `recvReqRetry` then makes two port calls, the
resend of `b` and one retry notification to the originator, clears
`needCPURetry`, and leaves the slot empty if the resend was accepted. -/
theorem C16_overflow_then_one_retry (s : Ctrl) (b : Packet) (subs : List (Env × Packet))
    (port : MemSidePort) (env : Env)
    (hslot : s.blocked_packet = some b) (hk : 1 ≤ subs.length) :
    ∃ log, run s (submissions subs) = some ({ s with needCPURetry := true }, log) ∧
      log.length = subs.length ∧
      allRejectedSilently log = true ∧
      ({ s with needCPURetry := true } : Ctrl).blocked_packet = some b ∧
      ∃ o : Outcome Unit, recvReqRetry port { s with needCPURetry := true } env = some o ∧
        o.trace = [Event.sendTimingReq port b (env.sendTimingReq port b), Event.sendRetryReq] ∧
        o.trace.count Event.sendRetryReq = 1 ∧
        o.state.needCPURetry = false ∧
        (env.sendTimingReq port b = true → o.state.blocked_packet = none) := by
  obtain ⟨log, hrun, hlen, hall⟩ := run_submissions_blocked subs s b hslot
  have hne : subs.isEmpty = false := by
    cases subs with
    | nil => simp at hk
    | cons e rest => rfl
  simp only [hne, Bool.false_eq_true, if_false] at hrun
  refine ⟨log, hrun, hlen, hall, hslot, _,
    recvReqRetry_blocked port { s with needCPURetry := true } env b hslot, ?_, ?_, rfl, ?_⟩
  · simp
  · simp
  · intro h
    simp [h]

/-- C16 for two submissions made while the slot holds a read of address 64. -/
theorem C16_witness :
    ({ create true with blocked_packet := some (readPkt 64) } : Ctrl).blocked_packet =
      some (readPkt 64) ∧
    1 ≤ [(envFree, readPkt 128), (envFree, readPkt 192)].length ∧
    ∃ log, run { create true with blocked_packet := some (readPkt 64) }
        (submissions [(envFree, readPkt 128), (envFree, readPkt 192)]) =
          some ({ ({ create true with blocked_packet := some (readPkt 64) } : Ctrl) with
                  needCPURetry := true }, log) ∧
      log.length = [(envFree, readPkt 128), (envFree, readPkt 192)].length ∧
      allRejectedSilently log = true ∧
      ({ ({ create true with blocked_packet := some (readPkt 64) } : Ctrl) with
          needCPURetry := true } : Ctrl).blocked_packet = some (readPkt 64) ∧
      ∃ o : Outcome Unit,
        recvReqRetry MemSidePort.mem_side
          { ({ create true with blocked_packet := some (readPkt 64) } : Ctrl) with
            needCPURetry := true } envFree = some o ∧
        o.trace = [Event.sendTimingReq MemSidePort.mem_side (readPkt 64)
          (envFree.sendTimingReq MemSidePort.mem_side (readPkt 64)), Event.sendRetryReq] ∧
        o.trace.count Event.sendRetryReq = 1 ∧
        o.state.needCPURetry = false ∧
        (envFree.sendTimingReq MemSidePort.mem_side (readPkt 64) = true →
          o.state.blocked_packet = none) :=
  ⟨rfl, by decide,
    C16_overflow_then_one_retry { create true with blocked_packet := some (readPkt 64) }
      (readPkt 64) [(envFree, readPkt 128), (envFree, readPkt 192)] MemSidePort.mem_side envFree
      rfl (by decide)⟩

/-- C17: with an empty blocked slot, `needCPURetry = false` and no flush
triggered, a submission of `a` whose send is rejected, followed by a
`recvReqRetry` whose resend is accepted, returns `true` for the submission
and makes two port calls in all, the rejected send of `a` and its accepted
resend, so no retry notification; the blocked slot, `needCPURetry`,
`cacheFlushWait` and `current_state` end as they do when the first send of
`a` is accepted directly. -/
theorem C17_absorbed_rejection_resolves (s : Ctrl) (a : Packet) (env1 env2 env3 : Env)
    (port : MemSidePort)
    (hslot : s.blocked_packet = none) (hflag : s.needCPURetry = false)
    (hnoflush : s.current_state = USING_NONE ∨ s.accountFlush = false)
    (hrejected : env1.sendTimingReq MemSidePort.mem_side a = false)
    (hresent : env2.sendTimingReq port a = true)
    (hdirect : env3.sendTimingReq MemSidePort.mem_side a = true) :
    ∃ o1 o2 o3, handleTimingReq s env1 a = some o1 ∧
      recvReqRetry port o1.state env2 = some o2 ∧
      handleTimingReq s env3 a = some o3 ∧
      o1.ret = true ∧
      o1.trace ++ o2.trace =
        [Event.sendTimingReq MemSidePort.mem_side a false, Event.sendTimingReq port a true] ∧
      (o1.trace ++ o2.trace).count Event.sendRetryReq = 0 ∧
      o2.state.blocked_packet = o3.state.blocked_packet ∧
      o2.state.needCPURetry = o3.state.needCPURetry ∧
      o2.state.cacheFlushWait = o3.state.cacheFlushWait ∧
      o2.state.current_state = o3.state.current_state := by
  have hnf : s.current_state ≠ USING_CACHE ∨ s.accountFlush = false := by
    rcases hnoflush with h | h
    · exact Or.inl (by rw [h]; decide)
    · exact Or.inr h
  refine ⟨_, _, _, handleTimingReq_dispatch s env1 a hslot hnf,
    recvReqRetry_blocked port _ env2 a (by simp [hrejected]),
    handleTimingReq_dispatch s env3 a hslot hnf, rfl, ?_⟩
  simp [hrejected, hresent, hdirect, hflag, hslot, mem_port_to_use_state]

/-- C17 at the constructed controller. -/
theorem C17_witness :
    (create true).blocked_packet = none ∧ (create true).needCPURetry = false ∧
    ((create true).current_state = USING_NONE ∨ (create true).accountFlush = false) ∧
    envBusy.sendTimingReq MemSidePort.mem_side (readPkt 64) = false ∧
    envFree.sendTimingReq MemSidePort.mem_side (readPkt 64) = true ∧
    ∃ o1 o2 o3, handleTimingReq (create true) envBusy (readPkt 64) = some o1 ∧
      recvReqRetry MemSidePort.mem_side o1.state envFree = some o2 ∧
      handleTimingReq (create true) envFree (readPkt 64) = some o3 ∧
      o1.ret = true ∧
      o1.trace ++ o2.trace =
        [Event.sendTimingReq MemSidePort.mem_side (readPkt 64) false,
         Event.sendTimingReq MemSidePort.mem_side (readPkt 64) true] ∧
      (o1.trace ++ o2.trace).count Event.sendRetryReq = 0 ∧
      o2.state.blocked_packet = o3.state.blocked_packet ∧
      o2.state.needCPURetry = o3.state.needCPURetry ∧
      o2.state.cacheFlushWait = o3.state.cacheFlushWait ∧
      o2.state.current_state = o3.state.current_state :=
  ⟨rfl, rfl, Or.inl rfl, rfl, rfl,
    C17_absorbed_rejection_resolves (create true) (readPkt 64) envBusy envFree envFree
      MemSidePort.mem_side rfl rfl (Or.inl rfl) rfl rfl rfl⟩

/-- C15: from every state with `current_state = USING_CACHE` and
`accountFlush = true`, for every sequence of handler calls in which
`recvReqRetry` is delivered only while the blocked slot is occupied and the
flush send is accepted: the run completes, the controller issues its flush
request at most once over the whole run, and exactly once if the sequence
contains a submission made while the blocked slot is empty. As this holds
for every sequence, it holds for each prefix: the one flush has been issued
as soon as such a submission has run, and no later call issues a second.
When no submitted or blocked packet is itself a `FlushReq`, the sends of
`FlushReq` packets in the trace are exactly these issued flushes. -/
theorem C15_one_flush_per_transition (s : Ctrl) (evs : List (Env × Call))
    (hcache : s.current_state = USING_CACHE) (hacc : s.accountFlush = true)
    (hretry : retryWhenBlocked s evs = true) (hsent : flushSendsAccepted evs = true) :
    ∃ s2 log, run s evs = some (s2, log) ∧
      flushesIssued log ≤ 1 ∧
      (0 < emptySlotSubmissions s evs → flushesIssued log = 1) ∧
      (holdsNormal s = true → normalRequests evs = true →
        (traceOf log).countP Event.isFlushSend = flushesIssued log) := by
  obtain ⟨s2, log, hrun, _, hc, hcount⟩ :=
    run_flush_count evs s (Or.inl ⟨hcache, hacc⟩) hretry hsent
  exact ⟨s2, log, hrun, (hc hcache).1, (hc hcache).2, hcount⟩

/-- C15 on a run of three submissions from the cached path: the first issues
the flush, the next two are dispatched on `mem_side`. -/
theorem C15_witness :
    ({ create true with current_state := USING_CACHE } : Ctrl).current_state = USING_CACHE ∧
    ({ create true with current_state := USING_CACHE } : Ctrl).accountFlush = true ∧
    retryWhenBlocked { create true with current_state := USING_CACHE }
      [(envFree, Call.handleTimingReq (readPkt 64)), (envFree, Call.handleTimingReq (readPkt 128)),
       (envFree, Call.handleTimingReq (readPkt 192))] = true ∧
    flushSendsAccepted
      [(envFree, Call.handleTimingReq (readPkt 64)), (envFree, Call.handleTimingReq (readPkt 128)),
       (envFree, Call.handleTimingReq (readPkt 192))] = true ∧
    ∃ s2 log, run { create true with current_state := USING_CACHE }
        [(envFree, Call.handleTimingReq (readPkt 64)),
         (envFree, Call.handleTimingReq (readPkt 128)),
         (envFree, Call.handleTimingReq (readPkt 192))] = some (s2, log) ∧
      flushesIssued log ≤ 1 ∧
      (0 < emptySlotSubmissions { create true with current_state := USING_CACHE }
          [(envFree, Call.handleTimingReq (readPkt 64)),
           (envFree, Call.handleTimingReq (readPkt 128)),
           (envFree, Call.handleTimingReq (readPkt 192))] → flushesIssued log = 1) ∧
      (holdsNormal { create true with current_state := USING_CACHE } = true →
        normalRequests
          [(envFree, Call.handleTimingReq (readPkt 64)),
           (envFree, Call.handleTimingReq (readPkt 128)),
           (envFree, Call.handleTimingReq (readPkt 192))] = true →
        (traceOf log).countP Event.isFlushSend = flushesIssued log) :=
  ⟨rfl, rfl, rfl, rfl,
    C15_one_flush_per_transition { create true with current_state := USING_CACHE }
      [(envFree, Call.handleTimingReq (readPkt 64)), (envFree, Call.handleTimingReq (readPkt 128)),
       (envFree, Call.handleTimingReq (readPkt 192))] rfl rfl rfl rfl⟩

/-- C18: from the constructed controller, for every sequence of handler calls
in which `recvReqRetry` is delivered only after a rejected send and at most
once for each rejected send, the blocked slot is occupied at the start of
every `recvReqRetry` call, and the run completes: the assertion of
`recvReqRetry` never fails. -/
theorem C18_retry_finds_blocked_packet (accountFlush : Bool) (evs : List (Env × Call))
    (hdisc : retryAfterRejection 0 (create accountFlush) evs = true) :
    retryWhenBlocked (create accountFlush) evs = true ∧
    ∃ s log, run (create accountFlush) evs = some (s, log) := by
  have hretry : retryWhenBlocked (create accountFlush) evs = true :=
    run_owed evs 0 (create accountFlush) rfl (by decide) (by intro h; cases h) hdisc
  obtain ⟨s, log, hrun, _⟩ := run_balance evs (create accountFlush) rfl hretry
  exact ⟨hretry, s, log, hrun⟩

/-- C18 on a run in which a rejected send is answered by a capacity signal
whose resend is rejected too, and then by a second one. -/
theorem C18_witness :
    retryAfterRejection 0 (create true)
      [(envBusy, Call.handleTimingReq (readPkt 64)),
       (envBusy, Call.recvReqRetry MemSidePort.mem_side),
       (envFree, Call.recvReqRetry MemSidePort.mem_side)] = true ∧
    retryWhenBlocked (create true)
      [(envBusy, Call.handleTimingReq (readPkt 64)),
       (envBusy, Call.recvReqRetry MemSidePort.mem_side),
       (envFree, Call.recvReqRetry MemSidePort.mem_side)] = true ∧
    ∃ s log, run (create true)
      [(envBusy, Call.handleTimingReq (readPkt 64)),
       (envBusy, Call.recvReqRetry MemSidePort.mem_side),
       (envFree, Call.recvReqRetry MemSidePort.mem_side)] = some (s, log) :=
  ⟨rfl, C18_retry_finds_blocked_packet true
    [(envBusy, Call.handleTimingReq (readPkt 64)),
     (envBusy, Call.recvReqRetry MemSidePort.mem_side),
     (envFree, Call.recvReqRetry MemSidePort.mem_side)] rfl⟩

/-- C19: in every state the handlers can bring the constructed controller to,
for either value of `accountFlush` and whatever the counter values were,
`current_state = USING_NONE` and `cacheFlushWait = false`. Hence, from such a
state, no handler step issues the flush request, every port call of
`handleTimingReq pkt` is the send of `pkt` itself on `mem_side`, and
`notifyFlush` makes no port call. -/
theorem C19_constructed_controller_stays_direct (accountFlush : Bool) (s : Ctrl)
    (hreach : Reachable accountFlush s) :
    s.current_state = USING_NONE ∧
    s.cacheFlushWait = false ∧
    (∀ (env : Env) (c : Call) (o : Outcome (Option Bool)), step s env c = some o →
      Record.issuedFlush { call := c, ret := o.ret, trace := o.trace } = false) ∧
    (∀ (env : Env) (pkt : Packet) (o : Outcome Bool), handleTimingReq s env pkt = some o →
      ∀ e ∈ o.trace, e = Event.sendTimingReq MemSidePort.mem_side pkt
        (env.sendTimingReq MemSidePort.mem_side pkt)) ∧
    (notifyFlush s).trace = [] := by
  obtain ⟨hcs, hw⟩ := reachable_direct accountFlush s hreach
  refine ⟨hcs, hw, ?_, ?_, ?_⟩
  · intro env c o hstep
    exact (step_stays_direct s env c o hcs hw hstep).2.2
  · intro env pkt o ho e he
    cases hb : s.blocked_packet with
    | some p0 =>
      rw [handleTimingReq_blocked s env pkt p0 hb] at ho
      simp only [Option.some.injEq] at ho
      subst ho
      simp at he
    | none =>
      have hnf : s.current_state ≠ USING_CACHE ∨ s.accountFlush = false :=
        Or.inl (by rw [hcs]; decide)
      rw [handleTimingReq_dispatch s env pkt hb hnf] at ho
      simp only [Option.some.injEq] at ho
      subst ho
      simpa using he
  · simp [notifyFlush, hw]

/-- C19 at the state reached by one submission whose send was rejected. -/
theorem C19_witness :
    Reachable true { create true with blocked_packet := some (readPkt 64) } ∧
    ({ create true with blocked_packet := some (readPkt 64) } : Ctrl).current_state =
      USING_NONE ∧
    ({ create true with blocked_packet := some (readPkt 64) } : Ctrl).cacheFlushWait = false ∧
    (∀ (env : Env) (c : Call) (o : Outcome (Option Bool)),
      step { create true with blocked_packet := some (readPkt 64) } env c = some o →
      Record.issuedFlush { call := c, ret := o.ret, trace := o.trace } = false) ∧
    (∀ (env : Env) (pkt : Packet) (o : Outcome Bool),
      handleTimingReq { create true with blocked_packet := some (readPkt 64) } env pkt =
        some o →
      ∀ e ∈ o.trace, e = Event.sendTimingReq MemSidePort.mem_side pkt
        (env.sendTimingReq MemSidePort.mem_side pkt)) ∧
    (notifyFlush { create true with blocked_packet := some (readPkt 64) }).trace = [] :=
  have hreach : Reachable true { create true with blocked_packet := some (readPkt 64) } :=
    Reachable.step (create true) envBusy (Call.handleTimingReq (readPkt 64))
      { ret := some true
        state := { create true with blocked_packet := some (readPkt 64) }
        trace := [Event.sendTimingReq MemSidePort.mem_side (readPkt 64) false] }
      Reachable.init rfl
  ⟨hreach, C19_constructed_controller_stays_direct true
    { create true with blocked_packet := some (readPkt 64) } hreach⟩

end DynamicCacheCtrl
